import Mathlib

/-!
# Mob AI helpers (`Server/MobAi/Helpers.c`)

A shallow embedding of the per-tick behaviour helpers of the mob AI:
`predict`, `has_new_target`, `ai_is_passive`, `should_aggro`, `tick_idle`,
`tick_idle_move_default`, `tick_summon_return_to_owner` and
`tick_return_to_higher_zone`.

Conventions of the embedding.

* C `float`/`double` values are elements of an ordered field `F`; the
  definitions are generic in `F` (and run on `ℚ`), the theorems that speak of
  Euclidean length, of `π` or of `sin`/`cos` are stated over `ℝ`.
* The functions of `math.h` and the constants of headers that are not part of
  the sources at hand are collected in `rr_env`.
* The components a function mutates through its pointers, the queue of
  deletion requests and the number of draws already taken from the random
  source form the explicit state `rr_state`; the rest of the simulation is
  read only and lives in `rr_simulation`.
-/

namespace MobAi

/-! ## Data model -/

/-- Entity index (`EntityIdx`). -/
abbrev EntityIdx := Nat

/-- Entity handle (`EntityHash`), the weak reference stored in components. -/
abbrev EntityHash := Nat

/-- Modelled from the spec: the null sentinel `RR_NULL_ENTITY` of
`Shared/Entity.h`; only equality with it is ever tested. -/
def RR_NULL_ENTITY : Nat := 0

/-- The 2D vector `struct rr_vector` of `Shared/Vector.h`. -/
structure rr_vector (F : Type) where
  x : F
  y : F
  deriving DecidableEq, Repr

/-- Modelled from the spec: the behaviour states (`enum rr_ai_state`), one of
idle, idleMoving, returningToOwner, returningToHigherZone. -/
inductive rr_ai_state where
  | rr_ai_state_idle
  | rr_ai_state_idle_moving
  | rr_ai_state_returning_to_owner
  | rr_ai_state_returning_to_higher_zone
  deriving DecidableEq, Repr

/-- Modelled from the spec: the temperaments (`enum rr_ai_type`), in the order
passive < neutral < aggressive that the test `ai_type <= rr_ai_type_passive`
relies on. -/
inductive rr_ai_type where
  | rr_ai_type_passive
  | rr_ai_type_neutral
  | rr_ai_type_aggro
  deriving DecidableEq, Repr

/-- The integer value of a temperament, used for the comparison `<=`. -/
def rr_ai_type.val : rr_ai_type → Nat
  | .rr_ai_type_passive => 0
  | .rr_ai_type_neutral => 1
  | .rr_ai_type_aggro => 2

/-- Modelled from the spec: team affiliation; the code only tests for
equality with `rr_simulation_team_id_mobs`. -/
inductive rr_simulation_team_id where
  | rr_simulation_team_id_mobs
  | other (n : Nat)
  deriving DecidableEq, Repr

/-- The AI component (`struct rr_component_ai`), with the fields the helpers
read or write. -/
structure rr_component_ai (F : Type) where
  parent_id : EntityIdx
  target_entity : EntityHash
  ai_state : rr_ai_state
  ai_type : rr_ai_type
  aggro_range : F
  ticks_until_next_action : Nat
  return_pos : rr_vector F
  deriving DecidableEq, Repr

/-- The physical component (`struct rr_component_physical`). -/
structure rr_component_physical (F : Type) where
  x : F
  y : F
  angle : F
  bearing_angle : F
  acceleration : rr_vector F
  stun_ticks : Int
  radius : F
  deriving DecidableEq, Repr

/-- The relations component (`struct rr_component_relations`). -/
structure rr_component_relations where
  team : rr_simulation_team_id
  owner : EntityHash
  nest : EntityHash
  deriving DecidableEq, Repr

/-- What `math.h` and the absent headers provide: `sqrtf`, `cosf`, `sinf`,
`atan2f`, the constant `M_PI` and the base speed `RR_PLAYER_SPEED`. -/
structure rr_env (F : Type) where
  sqrt : F → F
  cos : F → F
  sin : F → F
  atan2 : F → F → F
  M_PI : F
  RR_PLAYER_SPEED : F

/-- Filter callback of the enemy search, `filter(simulation, seeker, target,
captures)`, with its captures already bound. -/
abbrev rr_filter := EntityIdx → EntityIdx → Bool

/-- The part of `struct rr_simulation` that the helpers only read: liveness,
component lookup, the enemy searches of `Server/EntityDetection.h` and the
two random sources (`rand_seq n` is what the `n`-th call of `rand()` returns,
`frand_seq n` what the `n`-th call of `rr_frand()` returns). -/
structure rr_simulation (F : Type) where
  entity_alive : EntityHash → Bool
  get_entity_hash : EntityIdx → EntityHash
  get_relations : EntityIdx → rr_component_relations
  get_physical : EntityHash → rr_component_physical F
  is_dead_flower : EntityHash → Bool
  high_zone_filter : rr_filter
  choose_nearby_enemy : EntityIdx → F → rr_filter → EntityIdx
  find_nearest_enemy : EntityIdx → F → rr_filter → EntityIdx
  rand_seq : Nat → Nat
  frand_seq : Nat → F

/-- The memory a helper may write: the AI and physical components of the mob,
the deferred deletion requests, and how many times `rand()` and `rr_frand()`
have been called so far. -/
structure rr_state (F : Type) where
  ai : rr_component_ai F
  physical : rr_component_physical F
  deletion_requests : List EntityIdx
  rand_calls : Nat
  frand_calls : Nat

/-! ## Vector primitives (`Shared/Vector.h`) -/

section Vector

variable {F : Type} [LinearOrderedField F]

/-- Modelled from the spec: vector primitive `set`, overwrite both
coordinates. -/
def rr_vector_set (_v : rr_vector F) (x y : F) : rr_vector F := ⟨x, y⟩

/-- Modelled from the spec: vector primitive `add`, `a += b`. -/
def rr_vector_add (a b : rr_vector F) : rr_vector F := ⟨a.x + b.x, a.y + b.y⟩

/-- Modelled from the spec: vector primitive `scale`, `v *= s`. -/
def rr_vector_scale (v : rr_vector F) (s : F) : rr_vector F := ⟨v.x * s, v.y * s⟩

/-- Modelled from the spec: vector primitive `magnitude`, the Euclidean
length. -/
def rr_vector_get_magnitude (env : rr_env F) (v : rr_vector F) : F :=
  env.sqrt (v.x * v.x + v.y * v.y)

/-- Modelled from the spec: vector primitive `from-polar`, the vector of
length `radius` at angle `theta`. -/
def rr_vector_from_polar (env : rr_env F) (radius theta : F) : rr_vector F :=
  ⟨env.cos theta * radius, env.sin theta * radius⟩

/-- Modelled from the spec: threshold magnitude comparison, `1` when the
vector is longer than `magnitude`, `-1` when shorter, `0` when equal. Every
vector is longer than a negative threshold; for a threshold `>= 0` the squares
are compared, which avoids a square root. -/
def rr_vector_magnitude_cmp (v : rr_vector F) (magnitude : F) : Int :=
  if magnitude < 0 then 1
  else if v.x * v.x + v.y * v.y < magnitude * magnitude then -1
  else if magnitude * magnitude < v.x * v.x + v.y * v.y then 1
  else 0

/-- Modelled from the spec: vector primitive `angle-from-vector`. -/
def rr_vector_theta (env : rr_env F) (v : rr_vector F) : F := env.atan2 v.y v.x

/-- Modelled from the spec: rescale a vector to the given length. -/
def rr_vector_set_magnitude (env : rr_env F) (v : rr_vector F) (mag : F) : rr_vector F :=
  rr_vector_scale v (mag / rr_vector_get_magnitude env v)

/-- Modelled from the spec: setter of the heading angle of the physical
component. -/
def rr_component_physical_set_angle (p : rr_component_physical F) (v : F) :
    rr_component_physical F :=
  { p with angle := v }

/-- Predictive aim, `predict` (Helpers.c 98-108). -/
def predict (env : rr_env F) (delta velocity : rr_vector F) (speed : F) : rr_vector F :=
  let distance := rr_vector_get_magnitude env delta
  let velocity :=
    if speed ≠ 0 then rr_vector_scale velocity (distance / speed)
    else rr_vector_set velocity 0 0
  rr_vector_add delta velocity

end Vector

/-! ## The helpers of `Helpers.c` -/

section Helpers

variable {F : Type} [LinearOrderedField F]

open rr_ai_state rr_ai_type rr_simulation_team_id

/-- The C library call `rand()`: the next value of the integer source, and
one more draw counted. -/
def rand (sim : rr_simulation F) (st : rr_state F) : Nat × rr_state F :=
  (sim.rand_seq st.rand_calls, { st with rand_calls := st.rand_calls + 1 })

/-- Modelled from the spec: `rr_frand()`, the random source's uniform float
in `[0,1)`: the next value of the float source, and one more draw counted. -/
def rr_frand (sim : rr_simulation F) (st : rr_state F) : F × rr_state F :=
  (sim.frand_seq st.frand_calls, { st with frand_calls := st.frand_calls + 1 })

/-- Modelled from the spec: `rr_simulation_request_entity_deletion`, a
deferred request appended to the queue the scheduler drains between ticks. -/
def rr_simulation_request_entity_deletion (st : rr_state F) (entity : EntityIdx) :
    rr_state F :=
  { st with deletion_requests := st.deletion_requests ++ [entity] }

/-- Filter `is_close_enough_to_parent` (Helpers.c 24-36); `parent_physical`
is what the search passes back as `captures`. -/
def is_close_enough_to_parent (sim : rr_simulation F)
    (parent_physical : rr_component_physical F) : rr_filter :=
  fun _seeker target =>
    let physical := sim.get_physical target
    decide ((physical.x - parent_physical.x) * (physical.x - parent_physical.x) +
        (physical.y - parent_physical.y) * (physical.y - parent_physical.y) <
      1000 * 1000)

/-- The re-acquisition step of `has_new_target` (Helpers.c 41-60): when the
target is null or not alive, search for a new one and store its handle. -/
def has_new_target_reacquire (sim : rr_simulation F) (ai : rr_component_ai F) :
    rr_component_ai F :=
  if ai.target_entity = RR_NULL_ENTITY ∨ sim.entity_alive ai.target_entity = false then
    let relations := sim.get_relations ai.parent_id
    let target_id :=
      if relations.team = rr_simulation_team_id_mobs then
        sim.choose_nearby_enemy ai.parent_id ai.aggro_range sim.high_zone_filter
      else
        sim.find_nearest_enemy ai.parent_id ai.aggro_range
          (is_close_enough_to_parent sim
            (if relations.nest = RR_NULL_ENTITY then sim.get_physical relations.owner
             else sim.get_physical relations.nest))
    { ai with target_entity := sim.get_entity_hash target_id }
  else ai

/-- Target acquisition, `has_new_target` (Helpers.c 38-79): the return value
and the state after the call. -/
def has_new_target (sim : rr_simulation F) (st : rr_state F) : Bool × rr_state F :=
  let ai := has_new_target_reacquire sim st.ai
  if ai.target_entity ≠ RR_NULL_ENTITY ∧ sim.entity_alive ai.target_entity = true then
    if ai.ai_state = rr_ai_state_idle ∨ ai.ai_state = rr_ai_state_idle_moving then
      (true, { st with ai := { ai with ticks_until_next_action := 25 } })
    else
      (false, { st with ai := ai })
  else if ¬ (ai.ai_state = rr_ai_state_idle ∨ ai.ai_state = rr_ai_state_idle_moving) then
    let r := rand sim { st with ai := ai }
    let ai := { ai with target_entity := RR_NULL_ENTITY }
    let ai := { ai with ai_state := rr_ai_state_idle }
    let ai := { ai with ticks_until_next_action := r.1 % 25 + 25 }
    (false, { r.2 with ai := ai })
  else
    (false, { st with ai := ai })

/-- Passivity test, `ai_is_passive` (Helpers.c 81-85). -/
def ai_is_passive (ai : rr_component_ai F) : Bool :=
  ai.ai_state == rr_ai_state_idle || ai.ai_state == rr_ai_state_idle_moving

/-- Aggro policy, `should_aggro` (Helpers.c 87-96). -/
def should_aggro (sim : rr_simulation F) (st : rr_state F) : Bool × rr_state F :=
  if st.ai.ai_type = rr_ai_type_neutral then
    (sim.entity_alive st.ai.target_entity && ai_is_passive st.ai, st)
  else if st.ai.ai_type = rr_ai_type_aggro then
    has_new_target sim st
  else
    (false, st)

/-- Idle tick, `tick_idle` (Helpers.c 110-124). -/
def tick_idle (env : rr_env F) (sim : rr_simulation F) (st : rr_state F) : rr_state F :=
  if st.ai.ticks_until_next_action = 0 then
    let r := rand sim st
    let st := { r.2 with ai := { r.2.ai with ticks_until_next_action := r.1 % 33 + 25 } }
    let st := { st with ai := { st.ai with ai_state := rr_ai_state_idle_moving } }
    let f := rr_frand sim st
    let physical := rr_component_physical_set_angle f.2.physical
      (f.2.physical.angle + (f.1 - 0.5) * env.M_PI)
    let st := { f.2 with physical := physical }
    { st with physical := { st.physical with bearing_angle := st.physical.angle } }
  else st

/-- Default idle locomotion, `tick_idle_move_default` (Helpers.c 126-139);
the float `12 + rr_frand() * 37` is truncated when stored in the integer
countdown. -/
def tick_idle_move_default [FloorRing F] (env : rr_env F) (sim : rr_simulation F)
    (st : rr_state F) : rr_state F :=
  let st :=
    if st.ai.ticks_until_next_action = 0 then
      let f := rr_frand sim st
      let ticks := Nat.floor (12 + f.1 * 37)
      let st := { f.2 with ai := { f.2.ai with ticks_until_next_action := ticks } }
      { st with ai := { st.ai with ai_state := rr_ai_state_idle } }
    else st
  let accel := rr_vector_from_polar env 1 st.physical.angle
  let acceleration := rr_vector_add st.physical.acceleration accel
  { st with physical := { st.physical with acceleration := acceleration } }

/-- Steering shared by the two returning branches of
`tick_summon_return_to_owner` (Helpers.c 185-189 and 195-199): accelerate
along `delta` at 1.2 times the base speed, face that way, drop the target. -/
def steer_towards (env : rr_env F) (delta : rr_vector F) (st : rr_state F) : rr_state F :=
  let accel := rr_vector_set_magnitude env delta (env.RR_PLAYER_SPEED * 1.2)
  let acceleration := rr_vector_add st.physical.acceleration accel
  let physical := { st.physical with acceleration := acceleration }
  let physical := rr_component_physical_set_angle physical (rr_vector_theta env accel)
  { st with physical := physical, ai := { st.ai with target_entity := RR_NULL_ENTITY } }

/-- Return-to-owner homing, `tick_summon_return_to_owner` (Helpers.c
154-209): the return value and the state after the call. -/
def tick_summon_return_to_owner (env : rr_env F) (entity : EntityIdx)
    (sim : rr_simulation F) (st : rr_state F) : Bool × rr_state F :=
  let relations := sim.get_relations entity
  if sim.entity_alive relations.owner = false ∨ sim.is_dead_flower relations.owner = true then
    (true, rr_simulation_request_entity_deletion st entity)
  else
    let parent_physical :=
      if relations.nest = RR_NULL_ENTITY then sim.get_physical relations.owner
      else sim.get_physical relations.nest
    let delta : rr_vector F :=
      ⟨parent_physical.x - st.physical.x, parent_physical.y - st.physical.y⟩
    if rr_vector_magnitude_cmp delta 5000 = 1 then
      (true, rr_simulation_request_entity_deletion st entity)
    else if st.ai.ai_type.val ≤ rr_ai_type_passive.val ∨ 0 < st.physical.stun_ticks then
      (false, st)
    else if st.ai.ai_state = rr_ai_state_returning_to_owner ∧
        rr_vector_magnitude_cmp delta (250 + st.physical.radius) = 1 then
      (true, steer_towards env delta st)
    else if rr_vector_magnitude_cmp delta (1000 + st.physical.radius) = 1 then
      (true, steer_towards env delta
        { st with ai := { st.ai with ai_state := rr_ai_state_returning_to_owner } })
    else if st.ai.ai_state = rr_ai_state_returning_to_owner then
      let st := { st with ai := { st.ai with ai_state := rr_ai_state_idle } }
      let r := rand sim st
      (false, { r.2 with ai := { r.2.ai with ticks_until_next_action := r.1 % 25 + 25 } })
    else
      (false, st)

end Helpers

/-! ## Return to a higher zone (`tick_return_to_higher_zone`) -/

/-- Modelled from the spec: one cell of the maze grid (`struct rr_maze_grid`),
a difficulty score and an opaque bitmask `value`. -/
structure rr_maze_grid (F : Type) where
  difficulty : F
  value : Nat
  deriving DecidableEq, Repr

/-- Modelled from the spec: the dimensions of the maze behind an arena
(`arena->maze`): the number of cells per side and the size of a cell. -/
structure rr_maze (F : Type) where
  maze_dim : Nat
  grid_size : F
  deriving DecidableEq, Repr

/-- Modelled from the spec: the arena component, with `get_grid x y` standing
for the accessor `rr_component_arena_get_grid(arena, x, y)`. -/
structure rr_component_arena (F : Type) where
  maze : rr_maze F
  get_grid : Int → Int → rr_maze_grid F

/-- Modelled from the spec: the mob component, of which only the rarity tier
is read. -/
structure rr_component_mob where
  rarity : Nat
  deriving DecidableEq, Repr

section HigherZone

variable {F : Type} [LinearOrderedField F]

open rr_ai_state rr_ai_type rr_simulation_team_id

/-- Modelled from the spec: `rr_fclamp`, clamp a value to `[lo, hi]`. -/
def rr_fclamp (v lo hi : F) : F :=
  if v < lo then lo else if hi < v then hi else v

/-- The C conversion from `float` to `int32_t`: the fractional part is
discarded (rounding towards zero). -/
def float_to_int32 [FloorRing F] (v : F) : Int :=
  if 0 ≤ v then Int.floor v else Int.ceil v

/-- The grid index under a world coordinate (Helpers.c 241-244):
`rr_fclamp(v / grid_size, 0, maze_dim - 1)` stored in an `int32_t`. -/
def grid_index [FloorRing F] (arena : rr_component_arena F) (v : F) : Int :=
  float_to_int32
    (rr_fclamp (v / arena.maze.grid_size) 0 (((arena.maze.maze_dim : Int) - 1 : Int) : F))

/-- Index of the representative cell of the macro-cell `offset` macro-cells
away from the one holding grid index `grid` (Helpers.c 252-253):
`(grid / 2 + offset) * 2 + 1`, with the truncating division of C. -/
def representative_index (grid offset : Int) : Int :=
  (Int.tdiv grid 2 + offset) * 2 + 1

/-- The pairs `(i, j)` in the order the two nested loops of Helpers.c 249-250
visit them: `i` from `-1` to `1` outside, `j` from `-1` to `1` inside. -/
def scan_offsets : List (Int × Int) :=
  [(-1, -1), (-1, 0), (-1, 1), (0, -1), (0, 0), (0, 1), (1, -1), (1, 0), (1, 1)]

/-- The body of the nested loops of `tick_return_to_higher_zone` (Helpers.c
249-264) run over the remaining pairs `(i, j)`; `lookups` lists the indices
passed to `rr_component_arena_get_grid` so far. -/
def higher_zone_scan (arena : rr_component_arena F) (grid_x grid_y : Int)
    (st : rr_state F) (lookups : List (Int × Int)) :
    List (Int × Int) → rr_state F × List (Int × Int)
  | [] => (st, lookups)
  | (i, j) :: rest =>
    let x := representative_index grid_x i
    let y := representative_index grid_y j
    if x < 0 ∨ (arena.maze.maze_dim : Int) ≤ x ∨ y < 0 ∨ (arena.maze.maze_dim : Int) ≤ y then
      higher_zone_scan arena grid_x grid_y st lookups rest
    else
      let grid := arena.get_grid x y
      if grid.difficulty < 48 then
        higher_zone_scan arena grid_x grid_y st (lookups ++ [(x, y)]) rest
      else
        let return_pos := rr_vector_set st.ai.return_pos
          ((x : F) * arena.maze.grid_size) ((y : F) * arena.maze.grid_size)
        let ai := { st.ai with return_pos := return_pos }
        let ai := { ai with ai_state := rr_ai_state_returning_to_higher_zone }
        ({ st with ai := ai }, lookups ++ [(x, y)])

/-- Return-to-higher-zone homing, `tick_return_to_higher_zone` (Helpers.c
211-265): the state after the call and the grid indices it looked up, in
order. `mob` and `arena` are the components `rr_simulation_get_mob` and
`rr_simulation_get_arena` return, `rr_rarity_id_ultimate` is the constant of
the absent rarity enumeration; lines 223-227 repeat the steering code of
`steer_towards`. -/
def tick_return_to_higher_zone [FloorRing F] (env : rr_env F) (rr_rarity_id_ultimate : Nat)
    (mob : rr_component_mob) (arena : rr_component_arena F) (sim : rr_simulation F)
    (st : rr_state F) : rr_state F × List (Int × Int) :=
  if st.ai.ai_state = rr_ai_state_returning_to_higher_zone then
    let delta : rr_vector F :=
      ⟨st.ai.return_pos.x - st.physical.x, st.ai.return_pos.y - st.physical.y⟩
    if rr_vector_magnitude_cmp delta st.physical.radius = 1 then
      (steer_towards env delta st, [])
    else
      let st := { st with ai := { st.ai with ai_state := rr_ai_state_idle } }
      let r := rand sim st
      ({ r.2 with ai := { r.2.ai with ticks_until_next_action := r.1 % 25 + 25 } }, [])
  else if mob.rarity < rr_rarity_id_ultimate then
    (st, [])
  else
    let grid_x := grid_index arena st.physical.x
    let grid_y := grid_index arena st.physical.y
    let grid := arena.get_grid grid_x grid_y
    if 48 ≤ grid.difficulty ∨ grid.value = 0 ∨ grid.value &&& 8 ≠ 0 then
      (st, [(grid_x, grid_y)])
    else
      higher_zone_scan arena grid_x grid_y st [(grid_x, grid_y)] scan_offsets

end HigherZone

/-! ## Notions the properties are stated with -/

section Notions

variable {F : Type} [LinearOrderedField F]

/-- The anchor of a summoned mob (Helpers.c 169-172): the physical component
of its nest if it has one, of its owner otherwise. -/
def summon_anchor (sim : rr_simulation F) (entity : EntityIdx) : rr_component_physical F :=
  if (sim.get_relations entity).nest = RR_NULL_ENTITY then
    sim.get_physical (sim.get_relations entity).owner
  else sim.get_physical (sim.get_relations entity).nest

/-- The vector from a summoned mob to its anchor (Helpers.c 173-174). -/
def summon_delta (sim : rr_simulation F) (entity : EntityIdx) (st : rr_state F) :
    rr_vector F :=
  ⟨(summon_anchor sim entity).x - st.physical.x, (summon_anchor sim entity).y - st.physical.y⟩

/-- The entity the search of the re-acquisition step of `has_new_target`
answers for the mob `parent_id` with the given aggro range (Helpers.c
47-57). -/
def reacquire_search (sim : rr_simulation F) (parent_id : EntityIdx) (aggro_range : F) :
    EntityIdx :=
  if (sim.get_relations parent_id).team = rr_simulation_team_id.rr_simulation_team_id_mobs then
    sim.choose_nearby_enemy parent_id aggro_range sim.high_zone_filter
  else
    sim.find_nearest_enemy parent_id aggro_range
      (is_close_enough_to_parent sim (summon_anchor sim parent_id))

/-- The vector from a mob to its return anchor (Helpers.c 219-220). -/
def return_delta (st : rr_state F) : rr_vector F :=
  ⟨st.ai.return_pos.x - st.physical.x, st.ai.return_pos.y - st.physical.y⟩

/-- Whether the macro-cell `p = (i, j)` macro-cells away from the one holding
the grid cell `(grid_x, grid_y)` has its representative cell inside the grid
and of difficulty at least 48. -/
def is_higher_zone_cell (arena : rr_component_arena F) (grid_x grid_y : Int)
    (p : Int × Int) : Bool :=
  decide (0 ≤ representative_index grid_x p.1 ∧
    representative_index grid_x p.1 < (arena.maze.maze_dim : Int) ∧
    0 ≤ representative_index grid_y p.2 ∧
    representative_index grid_y p.2 < (arena.maze.maze_dim : Int) ∧
    48 ≤ (arena.get_grid (representative_index grid_x p.1)
      (representative_index grid_y p.2)).difficulty)

end Notions

/-! ## Concrete worlds used to evaluate the helpers -/

section Samples

variable (F : Type) [LinearOrderedField F]

open rr_ai_state rr_ai_type rr_simulation_team_id

/-- An environment with the given `sqrt`, `cos`, `sin` and `M_PI`, an `atan2`
that is constantly `0` and base speed `1`. -/
def sample_env (sqrt cos sin : F → F) (pi : F) : rr_env F :=
  { sqrt := sqrt, cos := cos, sin := sin, atan2 := fun _ _ => 0, M_PI := pi,
    RR_PLAYER_SPEED := 1 }

/-- A physical component at the point `(x, y)` with radius `1`, at rest. -/
def sample_physical (x y : F) : rr_component_physical F :=
  { x := x, y := y, angle := 0, bearing_angle := 0, acceleration := ⟨0, 0⟩,
    stun_ticks := 0, radius := 1 }

/-- A world in which the only live handle is `7`, the entity with index `i`
has handle `i`, every entity is a mob-team entity at the origin with the
given owner and no nest, both enemy searches answer `found`, nothing is a
dead flower, `rand()` returns `100, 101, ...` and `rr_frand()` always returns
`1/2`. -/
def sample_sim (found : EntityIdx) (owner : EntityHash) : rr_simulation F :=
  { entity_alive := fun h => decide (h = 7)
    get_entity_hash := fun i => i
    get_relations := fun _ => ⟨rr_simulation_team_id_mobs, owner, RR_NULL_ENTITY⟩
    get_physical := fun _ => sample_physical F 0 0
    is_dead_flower := fun _ => false
    high_zone_filter := fun _ _ => true
    choose_nearby_enemy := fun _ _ _ => found
    find_nearest_enemy := fun _ _ _ => found
    rand_seq := fun n => 100 + n
    frand_seq := fun _ => 1 / 2 }

/-- An AI component of entity `1` with the given target, behaviour state,
temperament and countdown. -/
def sample_ai (target : EntityHash) (state : rr_ai_state) (type : rr_ai_type)
    (ticks : Nat) : rr_component_ai F :=
  { parent_id := 1, target_entity := target, ai_state := state, ai_type := type,
    aggro_range := 500, ticks_until_next_action := ticks, return_pos := ⟨0, 0⟩ }

/-- A state of entity `1` standing at `(x, y)`, nothing deleted and nothing
drawn yet. -/
def sample_state (ai : rr_component_ai F) (x y : F) : rr_state F :=
  { ai := ai, physical := sample_physical F x y, deletion_requests := [],
    rand_calls := 0, frand_calls := 0 }

/-- The state `sample_state` with the radius of the mob replaced. -/
def sample_state_radius (ai : rr_component_ai F) (x y radius : F) : rr_state F :=
  { ai := ai, physical := { sample_physical F x y with radius := radius },
    deletion_requests := [], rand_calls := 0, frand_calls := 0 }

/-- An arena of `8 x 8` cells of size `100` in which every cell has value `1`
and difficulty `10`, except the cell `(5, 3)`, of difficulty `52`. -/
def sample_arena : rr_component_arena F :=
  { maze := { maze_dim := 8, grid_size := 100 }
    get_grid := fun x y =>
      if x = 5 ∧ y = 3 then { difficulty := 52, value := 1 }
      else { difficulty := 10, value := 1 } }

/-- A world like `sample_sim` for a mob of team `team` with owner `7`, in
which the candidates are the entities `5` and `7`, the high-zone filter
rejects `5`, and both searches answer the first candidate their filter
accepts (`0` when it accepts none). -/
def sample_sim_filtered (team : rr_simulation_team_id) : rr_simulation F :=
  { sample_sim F 0 7 with
    entity_alive := fun h => decide (h = 5 ∨ h = 7)
    get_relations := fun _ => ⟨team, 7, RR_NULL_ENTITY⟩
    high_zone_filter := fun _ target => decide (target ≠ 5)
    choose_nearby_enemy := fun seeker _ filter =>
      if filter seeker 5 then 5 else if filter seeker 7 then 7 else 0
    find_nearest_enemy := fun seeker _ filter =>
      if filter seeker 5 then 5 else if filter seeker 7 then 7 else 0 }

end Samples

/-! ## Properties -/

section Properties

variable {F : Type} [LinearOrderedField F]

open rr_ai_state rr_ai_type rr_simulation_team_id

/-- The re-acquisition step writes the target only. -/
theorem has_new_target_reacquire_ai_state (sim : rr_simulation F) (ai : rr_component_ai F) :
    (has_new_target_reacquire sim ai).ai_state = ai.ai_state := by
  unfold has_new_target_reacquire
  split <;> rfl

/-- The re-acquisition step leaves the countdown alone. -/
theorem has_new_target_reacquire_ticks (sim : rr_simulation F) (ai : rr_component_ai F) :
    (has_new_target_reacquire sim ai).ticks_until_next_action = ai.ticks_until_next_action := by
  unfold has_new_target_reacquire
  split <;> rfl

/-- C1: over the reals, with `sqrt` the real square root, `predict offset
velocity 0` is `offset`, and for every `speed > 0` the result is
`offset + velocity * (|offset| / speed)` with `|offset|` the Euclidean length
of `offset`. -/
theorem predict_spec (env : rr_env ℝ) (hsqrt : env.sqrt = Real.sqrt)
    (offset velocity : rr_vector ℝ) :
    predict env offset velocity 0 = offset ∧
    ∀ speed : ℝ, 0 < speed →
      predict env offset velocity speed =
        ⟨offset.x + velocity.x * (Real.sqrt (offset.x ^ 2 + offset.y ^ 2) / speed),
         offset.y + velocity.y * (Real.sqrt (offset.x ^ 2 + offset.y ^ 2) / speed)⟩ := by
  constructor
  · simp [predict, rr_vector_set, rr_vector_add]
  · intro speed hspeed
    have hne : speed ≠ 0 := ne_of_gt hspeed
    simp [predict, rr_vector_scale, rr_vector_add, rr_vector_get_magnitude, hsqrt, hne, pow_two]

/-- C1 at a concrete input: offset `(3, 4)`, velocity `(1, 2)`, speed `5`. -/
theorem predict_spec_witness :
    (0 : ℝ) < 5 ∧
    predict (sample_env ℝ Real.sqrt Real.cos Real.sin Real.pi) ⟨3, 4⟩ ⟨1, 2⟩ 5 =
      ⟨3 + 1 * (Real.sqrt (3 ^ 2 + 4 ^ 2) / 5), 4 + 2 * (Real.sqrt (3 ^ 2 + 4 ^ 2) / 5)⟩ :=
  ⟨by norm_num, (predict_spec (sample_env ℝ Real.sqrt Real.cos Real.sin Real.pi) rfl
    ⟨3, 4⟩ ⟨1, 2⟩).2 5 (by norm_num)⟩

/-- C2: for a mob that is not aggressive, `should_aggro` returns true exactly
when the temperament is neutral, the current target is alive and the
behaviour state is idle or idleMoving; for a passive mob it returns false. -/
theorem should_aggro_not_aggro (sim : rr_simulation F) (st : rr_state F)
    (h : st.ai.ai_type ≠ rr_ai_type_aggro) :
    ((should_aggro sim st).1 = true ↔
      st.ai.ai_type = rr_ai_type_neutral ∧
      sim.entity_alive st.ai.target_entity = true ∧
      (st.ai.ai_state = rr_ai_state_idle ∨ st.ai.ai_state = rr_ai_state_idle_moving)) ∧
    (st.ai.ai_type = rr_ai_type_passive → (should_aggro sim st).1 = false) := by
  unfold should_aggro ai_is_passive
  by_cases hn : st.ai.ai_type = rr_ai_type_neutral
  · simp [hn]
  · simp [hn, h]

/-- C2 at a concrete input: a neutral idle mob whose target `7` is alive. -/
theorem should_aggro_not_aggro_witness :
    (should_aggro (sample_sim ℚ 0 0)
      (sample_state ℚ (sample_ai ℚ 7 rr_ai_state_idle rr_ai_type_neutral 3) 0 0)).1 = true :=
  ((should_aggro_not_aggro (sample_sim ℚ 0 0)
      (sample_state ℚ (sample_ai ℚ 7 rr_ai_state_idle rr_ai_type_neutral 3) 0 0)
      (by decide)).1).2 ⟨rfl, rfl, Or.inl rfl⟩

/-- C3: after `has_new_target` the target is the null sentinel or the handle
of an alive entity, provided each enemy search returns no entity or an alive
one and the handle of no entity is the null sentinel. -/
theorem has_new_target_target_valid (sim : rr_simulation F) (st : rr_state F)
    (hnull : sim.get_entity_hash RR_NULL_ENTITY = RR_NULL_ENTITY)
    (hchoose : ∀ seeker range filter,
      sim.choose_nearby_enemy seeker range filter = RR_NULL_ENTITY ∨
      sim.entity_alive (sim.get_entity_hash (sim.choose_nearby_enemy seeker range filter)) = true)
    (hfind : ∀ seeker range filter,
      sim.find_nearest_enemy seeker range filter = RR_NULL_ENTITY ∨
      sim.entity_alive (sim.get_entity_hash (sim.find_nearest_enemy seeker range filter)) = true) :
    (has_new_target sim st).2.ai.target_entity = RR_NULL_ENTITY ∨
    sim.entity_alive (has_new_target sim st).2.ai.target_entity = true := by
  have hre : (has_new_target_reacquire sim st.ai).target_entity = RR_NULL_ENTITY ∨
      sim.entity_alive (has_new_target_reacquire sim st.ai).target_entity = true := by
    unfold has_new_target_reacquire
    by_cases hcur : st.ai.target_entity = RR_NULL_ENTITY ∨
        sim.entity_alive st.ai.target_entity = false
    · simp only [if_pos hcur]
      by_cases hteam : (sim.get_relations st.ai.parent_id).team = rr_simulation_team_id_mobs
      · simp only [if_pos hteam]
        rcases hchoose st.ai.parent_id st.ai.aggro_range sim.high_zone_filter with h | h
        · left; rw [h, hnull]
        · right; exact h
      · simp only [if_neg hteam]
        rcases hfind st.ai.parent_id st.ai.aggro_range
          (is_close_enough_to_parent sim
            (if (sim.get_relations st.ai.parent_id).nest = RR_NULL_ENTITY then
              sim.get_physical (sim.get_relations st.ai.parent_id).owner
             else sim.get_physical (sim.get_relations st.ai.parent_id).nest)) with h | h
        · left; rw [h, hnull]
        · right; exact h
    · simp only [if_neg hcur]
      right
      simp only [not_or] at hcur
      simpa using hcur.2
  unfold has_new_target
  simp only
  split
  · split <;> exact hre
  · split
    · left; rfl
    · exact hre

/-- C3 at a concrete input: the search finds the live entity `7`. -/
theorem has_new_target_target_valid_witness :
    (has_new_target (sample_sim ℚ 7 0)
        (sample_state ℚ (sample_ai ℚ 3 rr_ai_state_idle rr_ai_type_aggro 0) 0 0)).2.ai.target_entity
      = RR_NULL_ENTITY ∨
    (sample_sim ℚ 7 0).entity_alive
      (has_new_target (sample_sim ℚ 7 0)
        (sample_state ℚ (sample_ai ℚ 3 rr_ai_state_idle rr_ai_type_aggro 0) 0 0)).2.ai.target_entity
      = true :=
  has_new_target_target_valid (sample_sim ℚ 7 0)
    (sample_state ℚ (sample_ai ℚ 3 rr_ai_state_idle rr_ai_type_aggro 0) 0 0)
    rfl (fun _ _ _ => Or.inr rfl) (fun _ _ _ => Or.inr rfl)

/-- C4: `has_new_target` returns true exactly when, after the re-acquisition
step, the target is non-null and alive and the behaviour state is idle or
idleMoving; when it returns true the countdown is 25 and the behaviour state
is the one before the call. -/
theorem has_new_target_true_iff (sim : rr_simulation F) (st : rr_state F) :
    ((has_new_target sim st).1 = true ↔
      (has_new_target_reacquire sim st.ai).target_entity ≠ RR_NULL_ENTITY ∧
      sim.entity_alive (has_new_target_reacquire sim st.ai).target_entity = true ∧
      ((has_new_target_reacquire sim st.ai).ai_state = rr_ai_state_idle ∨
        (has_new_target_reacquire sim st.ai).ai_state = rr_ai_state_idle_moving)) ∧
    ((has_new_target sim st).1 = true →
      (has_new_target sim st).2.ai.ticks_until_next_action = 25 ∧
      (has_new_target sim st).2.ai.ai_state = st.ai.ai_state) := by
  have hstate := has_new_target_reacquire_ai_state sim st.ai
  unfold has_new_target
  simp only
  by_cases htarget : (has_new_target_reacquire sim st.ai).target_entity ≠ RR_NULL_ENTITY ∧
      sim.entity_alive (has_new_target_reacquire sim st.ai).target_entity = true
  · by_cases hidle : (has_new_target_reacquire sim st.ai).ai_state = rr_ai_state_idle ∨
        (has_new_target_reacquire sim st.ai).ai_state = rr_ai_state_idle_moving
    · simp only [if_pos htarget, if_pos hidle]
      exact ⟨⟨fun _ => ⟨htarget.1, htarget.2, hidle⟩, fun _ => trivial⟩,
        fun _ => ⟨trivial, hstate⟩⟩
    · simp only [if_pos htarget, if_neg hidle]
      refine ⟨⟨fun h => absurd h (by simp), fun h => absurd h.2.2 hidle⟩,
        fun h => absurd h (by simp)⟩
  · simp only [if_neg htarget]
    have hfalse : ∀ (a b : rr_state F), (if ¬ ((has_new_target_reacquire sim st.ai).ai_state =
        rr_ai_state_idle ∨ (has_new_target_reacquire sim st.ai).ai_state =
        rr_ai_state_idle_moving) then (false, a) else (false, b)).1 = false := by
      intro a b
      split <;> rfl
    refine ⟨⟨fun h => ?_, fun h => absurd ⟨h.1, h.2.1⟩ htarget⟩, fun h => ?_⟩
    · rw [hfalse] at h
      exact absurd h (by simp)
    · rw [hfalse] at h
      exact absurd h (by simp)

/-- C4 at a concrete input: an idle mob with countdown 3 for which the search
finds the live entity `7`. -/
theorem has_new_target_true_iff_witness :
    (has_new_target (sample_sim ℚ 7 0)
      (sample_state ℚ (sample_ai ℚ 0 rr_ai_state_idle rr_ai_type_aggro 3) 0 0)).2.ai.ticks_until_next_action
      = 25 ∧
    (has_new_target (sample_sim ℚ 7 0)
      (sample_state ℚ (sample_ai ℚ 0 rr_ai_state_idle rr_ai_type_aggro 3) 0 0)).2.ai.ai_state
      = rr_ai_state_idle :=
  (has_new_target_true_iff (sample_sim ℚ 7 0)
    (sample_state ℚ (sample_ai ℚ 0 rr_ai_state_idle rr_ai_type_aggro 3) 0 0)).2 rfl

/-- C5: when the behaviour state is neither idle nor idleMoving and no alive
target exists after the re-acquisition step, `has_new_target` returns false
and leaves the target null, the behaviour state idle and the countdown in
`[25, 49]`, whatever `rand()` returns. -/
theorem has_new_target_idle_fallback (sim : rr_simulation F) (st : rr_state F)
    (hstate : ¬ (st.ai.ai_state = rr_ai_state_idle ∨ st.ai.ai_state = rr_ai_state_idle_moving))
    (htarget : ¬ ((has_new_target_reacquire sim st.ai).target_entity ≠ RR_NULL_ENTITY ∧
      sim.entity_alive (has_new_target_reacquire sim st.ai).target_entity = true)) :
    (has_new_target sim st).1 = false ∧
    (has_new_target sim st).2.ai.target_entity = RR_NULL_ENTITY ∧
    (has_new_target sim st).2.ai.ai_state = rr_ai_state_idle ∧
    25 ≤ (has_new_target sim st).2.ai.ticks_until_next_action ∧
    (has_new_target sim st).2.ai.ticks_until_next_action ≤ 49 := by
  have hre := has_new_target_reacquire_ai_state sim st.ai
  have hstate2 : ¬ ((has_new_target_reacquire sim st.ai).ai_state = rr_ai_state_idle ∨
      (has_new_target_reacquire sim st.ai).ai_state = rr_ai_state_idle_moving) := by
    rw [hre]; exact hstate
  unfold has_new_target
  simp only [if_neg htarget, if_pos hstate2, rand]
  refine ⟨trivial, trivial, trivial, Nat.le_add_left 25 _, ?_⟩
  have := Nat.mod_lt (sim.rand_seq st.rand_calls) (by decide : 0 < 25)
  omega

/-- C5 at a concrete input: a mob returning to its owner whose target `3` is
dead and for which the search finds nothing. -/
theorem has_new_target_idle_fallback_witness :
    (has_new_target (sample_sim ℚ 0 0)
      (sample_state ℚ (sample_ai ℚ 3 rr_ai_state_returning_to_owner rr_ai_type_aggro 0) 0 0)).1
      = false ∧
    (has_new_target (sample_sim ℚ 0 0)
      (sample_state ℚ (sample_ai ℚ 3 rr_ai_state_returning_to_owner rr_ai_type_aggro 0)
        0 0)).2.ai.target_entity = RR_NULL_ENTITY ∧
    (has_new_target (sample_sim ℚ 0 0)
      (sample_state ℚ (sample_ai ℚ 3 rr_ai_state_returning_to_owner rr_ai_type_aggro 0)
        0 0)).2.ai.ai_state = rr_ai_state_idle ∧
    25 ≤ (has_new_target (sample_sim ℚ 0 0)
      (sample_state ℚ (sample_ai ℚ 3 rr_ai_state_returning_to_owner rr_ai_type_aggro 0)
        0 0)).2.ai.ticks_until_next_action ∧
    (has_new_target (sample_sim ℚ 0 0)
      (sample_state ℚ (sample_ai ℚ 3 rr_ai_state_returning_to_owner rr_ai_type_aggro 0)
        0 0)).2.ai.ticks_until_next_action ≤ 49 :=
  has_new_target_idle_fallback (sample_sim ℚ 0 0)
    (sample_state ℚ (sample_ai ℚ 3 rr_ai_state_returning_to_owner rr_ai_type_aggro 0) 0 0)
    (by decide) (by decide)

/-- C6, as stated, fails: an aggressive idle mob with null target and
countdown 0 for which the search finds nothing gets the answer false and
keeps the countdown 0, so neither alternative of the claim holds: no target
was found, and the countdown is outside `[25, 49]`. -/
theorem has_new_target_idle_aggro_counterexample :
    (sample_ai ℚ 0 rr_ai_state_idle rr_ai_type_aggro 0).ai_type = rr_ai_type_aggro ∧
    (sample_ai ℚ 0 rr_ai_state_idle rr_ai_type_aggro 0).ai_state = rr_ai_state_idle ∧
    (sample_ai ℚ 0 rr_ai_state_idle rr_ai_type_aggro 0).target_entity = RR_NULL_ENTITY ∧
    ¬ (((has_new_target (sample_sim ℚ 0 0)
          (sample_state ℚ (sample_ai ℚ 0 rr_ai_state_idle rr_ai_type_aggro 0) 0 0)).1 = true ∧
        (has_new_target (sample_sim ℚ 0 0)
          (sample_state ℚ (sample_ai ℚ 0 rr_ai_state_idle rr_ai_type_aggro 0)
            0 0)).2.ai.target_entity ≠ RR_NULL_ENTITY ∧
        (sample_sim ℚ 0 0).entity_alive (has_new_target (sample_sim ℚ 0 0)
          (sample_state ℚ (sample_ai ℚ 0 rr_ai_state_idle rr_ai_type_aggro 0)
            0 0)).2.ai.target_entity = true) ∨
      ((has_new_target (sample_sim ℚ 0 0)
          (sample_state ℚ (sample_ai ℚ 0 rr_ai_state_idle rr_ai_type_aggro 0) 0 0)).1 = false ∧
        (has_new_target (sample_sim ℚ 0 0)
          (sample_state ℚ (sample_ai ℚ 0 rr_ai_state_idle rr_ai_type_aggro 0)
            0 0)).2.ai.ai_state = rr_ai_state_idle ∧
        25 ≤ (has_new_target (sample_sim ℚ 0 0)
          (sample_state ℚ (sample_ai ℚ 0 rr_ai_state_idle rr_ai_type_aggro 0)
            0 0)).2.ai.ticks_until_next_action ∧
        (has_new_target (sample_sim ℚ 0 0)
          (sample_state ℚ (sample_ai ℚ 0 rr_ai_state_idle rr_ai_type_aggro 0)
            0 0)).2.ai.ticks_until_next_action ≤ 49)) := by
  decide

/-- C6, amended: for an aggressive mob in state idle whose target is null or
dead, `has_new_target` either finds a new alive target and returns true, or
returns false and leaves the behaviour state idle and the countdown
unchanged. -/
theorem has_new_target_idle_aggro (sim : rr_simulation F) (st : rr_state F)
    (_htype : st.ai.ai_type = rr_ai_type_aggro)
    (hstate : st.ai.ai_state = rr_ai_state_idle)
    (_htarget : st.ai.target_entity = RR_NULL_ENTITY ∨
      sim.entity_alive st.ai.target_entity = false) :
    ((has_new_target sim st).1 = true ∧
      (has_new_target sim st).2.ai.target_entity ≠ RR_NULL_ENTITY ∧
      sim.entity_alive (has_new_target sim st).2.ai.target_entity = true) ∨
    ((has_new_target sim st).1 = false ∧
      (has_new_target sim st).2.ai.ai_state = rr_ai_state_idle ∧
      (has_new_target sim st).2.ai.ticks_until_next_action =
        st.ai.ticks_until_next_action) := by
  have hre := has_new_target_reacquire_ai_state sim st.ai
  have hticks := has_new_target_reacquire_ticks sim st.ai
  have hidle : (has_new_target_reacquire sim st.ai).ai_state = rr_ai_state_idle ∨
      (has_new_target_reacquire sim st.ai).ai_state = rr_ai_state_idle_moving :=
    Or.inl (hre.trans hstate)
  unfold has_new_target
  simp only
  by_cases htarget : (has_new_target_reacquire sim st.ai).target_entity ≠ RR_NULL_ENTITY ∧
      sim.entity_alive (has_new_target_reacquire sim st.ai).target_entity = true
  · left
    simp only [if_pos htarget, if_pos hidle]
    exact ⟨trivial, htarget.1, htarget.2⟩
  · right
    simp only [if_neg htarget, not_not, if_neg (not_not.mpr hidle)]
    exact ⟨trivial, hre.trans hstate, hticks⟩

/-- C6, amended, at a concrete input: the search finds nothing, the countdown
stays 0. -/
theorem has_new_target_idle_aggro_witness :
    ((has_new_target (sample_sim ℚ 0 0)
        (sample_state ℚ (sample_ai ℚ 0 rr_ai_state_idle rr_ai_type_aggro 0) 0 0)).1 = true ∧
      (has_new_target (sample_sim ℚ 0 0)
        (sample_state ℚ (sample_ai ℚ 0 rr_ai_state_idle rr_ai_type_aggro 0)
          0 0)).2.ai.target_entity ≠ RR_NULL_ENTITY ∧
      (sample_sim ℚ 0 0).entity_alive (has_new_target (sample_sim ℚ 0 0)
        (sample_state ℚ (sample_ai ℚ 0 rr_ai_state_idle rr_ai_type_aggro 0)
          0 0)).2.ai.target_entity = true) ∨
    ((has_new_target (sample_sim ℚ 0 0)
        (sample_state ℚ (sample_ai ℚ 0 rr_ai_state_idle rr_ai_type_aggro 0) 0 0)).1 = false ∧
      (has_new_target (sample_sim ℚ 0 0)
        (sample_state ℚ (sample_ai ℚ 0 rr_ai_state_idle rr_ai_type_aggro 0)
          0 0)).2.ai.ai_state = rr_ai_state_idle ∧
      (has_new_target (sample_sim ℚ 0 0)
        (sample_state ℚ (sample_ai ℚ 0 rr_ai_state_idle rr_ai_type_aggro 0)
          0 0)).2.ai.ticks_until_next_action = 0) :=
  has_new_target_idle_aggro (sample_sim ℚ 0 0)
    (sample_state ℚ (sample_ai ℚ 0 rr_ai_state_idle rr_ai_type_aggro 0) 0 0)
    rfl rfl (Or.inl rfl)

/-- C7: over the reals with `M_PI = π`, for a mob in state idle with countdown
0, every value of `rand()` and every `rr_frand()` in `[0, 1)`, `tick_idle`
leaves the state idleMoving, the countdown in `[25, 57]`, the heading equal to
the prior heading plus an offset in `[-π/2, π/2]`, and the bearing equal to
the new heading. -/
theorem tick_idle_spec (env : rr_env ℝ) (hpi : env.M_PI = Real.pi)
    (sim : rr_simulation ℝ) (st : rr_state ℝ)
    (_hidle : st.ai.ai_state = rr_ai_state_idle)
    (hticks : st.ai.ticks_until_next_action = 0)
    (hfrand : ∀ n, 0 ≤ sim.frand_seq n ∧ sim.frand_seq n < 1) :
    (tick_idle env sim st).ai.ai_state = rr_ai_state_idle_moving ∧
    25 ≤ (tick_idle env sim st).ai.ticks_until_next_action ∧
    (tick_idle env sim st).ai.ticks_until_next_action ≤ 57 ∧
    (∃ offset : ℝ, -(Real.pi / 2) ≤ offset ∧ offset ≤ Real.pi / 2 ∧
      (tick_idle env sim st).physical.angle = st.physical.angle + offset) ∧
    (tick_idle env sim st).physical.bearing_angle = (tick_idle env sim st).physical.angle := by
  obtain ⟨h0, h1⟩ := hfrand st.frand_calls
  have hmod := Nat.mod_lt (sim.rand_seq st.rand_calls) (by decide : 0 < 33)
  have hpos := Real.pi_pos
  unfold tick_idle
  rw [if_pos hticks]
  refine ⟨rfl, Nat.le_add_left 25 _, ?_, ⟨(sim.frand_seq st.frand_calls - 0.5) * Real.pi, ?_, ?_, ?_⟩, rfl⟩
  · show sim.rand_seq st.rand_calls % 33 + 25 ≤ 57
    omega
  · have : (-(1 / 2) : ℝ) ≤ sim.frand_seq st.frand_calls - 0.5 := by norm_num; linarith
    nlinarith
  · have : sim.frand_seq st.frand_calls - 0.5 ≤ (1 / 2 : ℝ) := by norm_num; linarith
    nlinarith
  · show st.physical.angle + (sim.frand_seq st.frand_calls - 0.5) * env.M_PI = _
    rw [hpi]

/-- C7 at a concrete input: an idle mob with countdown 0, `rand()` returning
`100` and `rr_frand()` returning `1/2`. -/
theorem tick_idle_spec_witness :
    (tick_idle (sample_env ℝ Real.sqrt Real.cos Real.sin Real.pi) (sample_sim ℝ 0 0)
      (sample_state ℝ (sample_ai ℝ 0 rr_ai_state_idle rr_ai_type_passive 0)
        0 0)).ai.ai_state = rr_ai_state_idle_moving ∧
    (tick_idle (sample_env ℝ Real.sqrt Real.cos Real.sin Real.pi) (sample_sim ℝ 0 0)
      (sample_state ℝ (sample_ai ℝ 0 rr_ai_state_idle rr_ai_type_passive 0)
        0 0)).ai.ticks_until_next_action = 26 :=
  ⟨(tick_idle_spec (sample_env ℝ Real.sqrt Real.cos Real.sin Real.pi) rfl (sample_sim ℝ 0 0)
      (sample_state ℝ (sample_ai ℝ 0 rr_ai_state_idle rr_ai_type_passive 0) 0 0) rfl rfl
      (fun _ => by norm_num [sample_sim])).1, rfl⟩

/-- C8: over the reals with the real `cos` and `sin`, `tick_idle_move_default`
adds to the acceleration one impulse of length 1 along the heading, on every
tick; with countdown 0 it sets the state to idle and the countdown to a value
in `[12, 49]` for every `rr_frand()` in `[0, 1)`, and with a non-zero
countdown it leaves state and countdown unchanged. -/
theorem tick_idle_move_default_spec (env : rr_env ℝ) (hcos : env.cos = Real.cos)
    (hsin : env.sin = Real.sin) (sim : rr_simulation ℝ) (st : rr_state ℝ)
    (hfrand : ∀ n, 0 ≤ sim.frand_seq n ∧ sim.frand_seq n < 1) :
    (∃ impulse : rr_vector ℝ,
      impulse = ⟨Real.cos st.physical.angle, Real.sin st.physical.angle⟩ ∧
      Real.sqrt (impulse.x ^ 2 + impulse.y ^ 2) = 1 ∧
      (tick_idle_move_default env sim st).physical.acceleration =
        rr_vector_add st.physical.acceleration impulse) ∧
    (st.ai.ticks_until_next_action = 0 →
      (tick_idle_move_default env sim st).ai.ai_state = rr_ai_state_idle ∧
      12 ≤ (tick_idle_move_default env sim st).ai.ticks_until_next_action ∧
      (tick_idle_move_default env sim st).ai.ticks_until_next_action ≤ 49) ∧
    (st.ai.ticks_until_next_action ≠ 0 →
      (tick_idle_move_default env sim st).ai.ai_state = st.ai.ai_state ∧
      (tick_idle_move_default env sim st).ai.ticks_until_next_action =
        st.ai.ticks_until_next_action) := by
  obtain ⟨h0, h1⟩ := hfrand st.frand_calls
  refine ⟨⟨_, rfl, ?_, ?_⟩, ?_, ?_⟩
  · simp
  · unfold tick_idle_move_default
    by_cases hticks : st.ai.ticks_until_next_action = 0
    · simp [if_pos hticks, rr_frand, rr_vector_from_polar, hcos, hsin]
    · simp [if_neg hticks, rr_vector_from_polar, hcos, hsin]
  · intro hticks
    unfold tick_idle_move_default
    rw [if_pos hticks]
    refine ⟨rfl, ?_, ?_⟩
    · show 12 ≤ Nat.floor (12 + sim.frand_seq st.frand_calls * 37)
      apply Nat.le_floor
      push_cast
      linarith
    · show Nat.floor (12 + sim.frand_seq st.frand_calls * 37) ≤ 49
      apply Nat.floor_le_of_le
      push_cast
      linarith
  · intro hticks
    unfold tick_idle_move_default
    rw [if_neg hticks]
    exact ⟨rfl, rfl⟩

/-- C8 at a concrete input: an idle-moving mob with countdown 0 and
`rr_frand()` returning `1/2`. -/
theorem tick_idle_move_default_spec_witness :
    (tick_idle_move_default (sample_env ℝ Real.sqrt Real.cos Real.sin Real.pi)
      (sample_sim ℝ 0 0)
      (sample_state ℝ (sample_ai ℝ 0 rr_ai_state_idle_moving rr_ai_type_passive 0)
        0 0)).ai.ai_state = rr_ai_state_idle ∧
    12 ≤ (tick_idle_move_default (sample_env ℝ Real.sqrt Real.cos Real.sin Real.pi)
      (sample_sim ℝ 0 0)
      (sample_state ℝ (sample_ai ℝ 0 rr_ai_state_idle_moving rr_ai_type_passive 0)
        0 0)).ai.ticks_until_next_action ∧
    (tick_idle_move_default (sample_env ℝ Real.sqrt Real.cos Real.sin Real.pi)
      (sample_sim ℝ 0 0)
      (sample_state ℝ (sample_ai ℝ 0 rr_ai_state_idle_moving rr_ai_type_passive 0)
        0 0)).ai.ticks_until_next_action ≤ 49 :=
  (tick_idle_move_default_spec (sample_env ℝ Real.sqrt Real.cos Real.sin Real.pi) rfl rfl
    (sample_sim ℝ 0 0)
    (sample_state ℝ (sample_ai ℝ 0 rr_ai_state_idle_moving rr_ai_type_passive 0) 0 0)
    (fun _ => by norm_num [sample_sim])).2.1 rfl

/-- C9: when the owner of a summoned mob is not alive, or is a dead flower,
`tick_summon_return_to_owner` requests the deletion of the mob and returns
true, whatever the behaviour state, temperament, stun counter and position;
nothing else is written. -/
theorem tick_summon_owner_dead (env : rr_env F) (entity : EntityIdx)
    (sim : rr_simulation F) (st : rr_state F)
    (howner : sim.entity_alive (sim.get_relations entity).owner = false ∨
      sim.is_dead_flower (sim.get_relations entity).owner = true) :
    (tick_summon_return_to_owner env entity sim st).1 = true ∧
    (tick_summon_return_to_owner env entity sim st).2.deletion_requests =
      st.deletion_requests ++ [entity] ∧
    (tick_summon_return_to_owner env entity sim st).2.ai = st.ai ∧
    (tick_summon_return_to_owner env entity sim st).2.physical = st.physical := by
  unfold tick_summon_return_to_owner
  simp only
  rw [if_pos howner]
  exact ⟨rfl, rfl, rfl, rfl⟩

/-- C9 at a concrete input: entity `1` whose owner, the null handle, is not
alive. -/
theorem tick_summon_owner_dead_witness :
    (tick_summon_return_to_owner (sample_env ℚ id id id 3) 1 (sample_sim ℚ 0 0)
      (sample_state ℚ (sample_ai ℚ 0 rr_ai_state_idle rr_ai_type_aggro 0) 0 0)).1 = true ∧
    (tick_summon_return_to_owner (sample_env ℚ id id id 3) 1 (sample_sim ℚ 0 0)
      (sample_state ℚ (sample_ai ℚ 0 rr_ai_state_idle rr_ai_type_aggro 0)
        0 0)).2.deletion_requests = [1] :=
  ⟨(tick_summon_owner_dead (sample_env ℚ id id id 3) 1 (sample_sim ℚ 0 0)
      (sample_state ℚ (sample_ai ℚ 0 rr_ai_state_idle rr_ai_type_aggro 0) 0 0)
      (Or.inl rfl)).1,
   (tick_summon_owner_dead (sample_env ℚ id id id 3) 1 (sample_sim ℚ 0 0)
      (sample_state ℚ (sample_ai ℚ 0 rr_ai_state_idle rr_ai_type_aggro 0) 0 0)
      (Or.inl rfl)).2.1⟩

/-- The threshold comparison answers `1` exactly when the Euclidean length
exceeds the threshold, whatever the sign of the threshold. -/
theorem rr_vector_magnitude_cmp_longer (v : rr_vector ℝ) (magnitude : ℝ) :
    rr_vector_magnitude_cmp v magnitude = 1 ↔
      magnitude < Real.sqrt (v.x ^ 2 + v.y ^ 2) := by
  unfold rr_vector_magnitude_cmp
  by_cases hneg : magnitude < 0
  · rw [if_pos hneg]
    exact ⟨fun _ => lt_of_lt_of_le hneg (Real.sqrt_nonneg _), fun _ => rfl⟩
  · rw [if_neg hneg, Real.lt_sqrt (not_lt.mp hneg)]
    have e1 : v.x * v.x + v.y * v.y = v.x ^ 2 + v.y ^ 2 := by ring
    have e2 : magnitude * magnitude = magnitude ^ 2 := by ring
    rw [e1, e2]
    by_cases h1 : v.x ^ 2 + v.y ^ 2 < magnitude ^ 2
    · rw [if_pos h1]
      constructor
      · intro h; exact absurd h (by decide)
      · intro h; exact absurd h (not_lt.mpr (le_of_lt h1))
    · rw [if_neg h1]
      by_cases h2 : magnitude ^ 2 < v.x ^ 2 + v.y ^ 2
      · rw [if_pos h2]; exact ⟨fun _ => h2, fun _ => rfl⟩
      · rw [if_neg h2]
        constructor
        · intro h; exact absurd h (by decide)
        · intro h; exact absurd h h2

/-- The squared comparison answers `1` exactly when the Euclidean length
exceeds a non-negative threshold. -/
theorem rr_vector_magnitude_cmp_eq_one (v : rr_vector ℝ) (magnitude : ℝ)
    (_hm : 0 ≤ magnitude) :
    rr_vector_magnitude_cmp v magnitude = 1 ↔
      magnitude < Real.sqrt (v.x ^ 2 + v.y ^ 2) :=
  rr_vector_magnitude_cmp_longer v magnitude

/-- C10: over the reals, when the Euclidean distance from a summoned mob to
its anchor (the nest if present, else the owner) exceeds 5000,
`tick_summon_return_to_owner` requests the deletion of the mob and returns
true, for every stun counter, temperament and behaviour state, and leaves the
AI and physical components as they were. -/
theorem tick_summon_leash (env : rr_env ℝ) (entity : EntityIdx)
    (sim : rr_simulation ℝ) (st : rr_state ℝ)
    (hfar : 5000 < Real.sqrt
      (((if (sim.get_relations entity).nest = RR_NULL_ENTITY then
            sim.get_physical (sim.get_relations entity).owner
          else sim.get_physical (sim.get_relations entity).nest).x - st.physical.x) ^ 2 +
       ((if (sim.get_relations entity).nest = RR_NULL_ENTITY then
            sim.get_physical (sim.get_relations entity).owner
          else sim.get_physical (sim.get_relations entity).nest).y - st.physical.y) ^ 2)) :
    (tick_summon_return_to_owner env entity sim st).1 = true ∧
    (tick_summon_return_to_owner env entity sim st).2.deletion_requests =
      st.deletion_requests ++ [entity] ∧
    (tick_summon_return_to_owner env entity sim st).2.ai = st.ai ∧
    (tick_summon_return_to_owner env entity sim st).2.physical = st.physical := by
  have hcmp := (rr_vector_magnitude_cmp_eq_one
    ⟨(if (sim.get_relations entity).nest = RR_NULL_ENTITY then
          sim.get_physical (sim.get_relations entity).owner
        else sim.get_physical (sim.get_relations entity).nest).x - st.physical.x,
     (if (sim.get_relations entity).nest = RR_NULL_ENTITY then
          sim.get_physical (sim.get_relations entity).owner
        else sim.get_physical (sim.get_relations entity).nest).y - st.physical.y⟩
    5000 (by norm_num)).mpr hfar
  unfold tick_summon_return_to_owner
  simp only
  by_cases howner : sim.entity_alive (sim.get_relations entity).owner = false ∨
      sim.is_dead_flower (sim.get_relations entity).owner = true
  · rw [if_pos howner]
    exact ⟨rfl, rfl, rfl, rfl⟩
  · rw [if_neg howner, if_pos hcmp]
    exact ⟨rfl, rfl, rfl, rfl⟩

/-- C10 at a concrete input: the passive entity `1` at `(6000, 0)`, whose live
owner `7` stands at the origin. -/
theorem tick_summon_leash_witness :
    (tick_summon_return_to_owner (sample_env ℝ Real.sqrt Real.cos Real.sin Real.pi) 1
      (sample_sim ℝ 0 7)
      (sample_state ℝ (sample_ai ℝ 0 rr_ai_state_idle rr_ai_type_passive 0)
        6000 0)).1 = true ∧
    (tick_summon_return_to_owner (sample_env ℝ Real.sqrt Real.cos Real.sin Real.pi) 1
      (sample_sim ℝ 0 7)
      (sample_state ℝ (sample_ai ℝ 0 rr_ai_state_idle rr_ai_type_passive 0)
        6000 0)).2.deletion_requests = [1] :=
  ⟨(tick_summon_leash (sample_env ℝ Real.sqrt Real.cos Real.sin Real.pi) 1
      (sample_sim ℝ 0 7)
      (sample_state ℝ (sample_ai ℝ 0 rr_ai_state_idle rr_ai_type_passive 0) 6000 0)
      (by
        rw [Real.lt_sqrt (by norm_num)]
        norm_num [sample_sim, sample_state, sample_physical, RR_NULL_ENTITY])).1,
   (tick_summon_leash (sample_env ℝ Real.sqrt Real.cos Real.sin Real.pi) 1
      (sample_sim ℝ 0 7)
      (sample_state ℝ (sample_ai ℝ 0 rr_ai_state_idle rr_ai_type_passive 0) 6000 0)
      (by
        rw [Real.lt_sqrt (by norm_num)]
        norm_num [sample_sim, sample_state, sample_physical, RR_NULL_ENTITY])).2.1⟩

/-- The squared comparison does not answer `1` exactly when the Euclidean
length is at most a non-negative threshold. -/
theorem rr_vector_magnitude_cmp_ne_one (v : rr_vector ℝ) (magnitude : ℝ)
    (hm : 0 ≤ magnitude) :
    rr_vector_magnitude_cmp v magnitude ≠ 1 ↔
      Real.sqrt (v.x ^ 2 + v.y ^ 2) ≤ magnitude := by
  rw [Ne, rr_vector_magnitude_cmp_eq_one v magnitude hm, not_lt]

/-- With a live owner that is no dead flower and a mob inside the leash,
`tick_summon_return_to_owner` comes down to its last four tests. -/
theorem tick_summon_return_to_owner_leashed (env : rr_env F) (entity : EntityIdx)
    (sim : rr_simulation F) (st : rr_state F)
    (halive : sim.entity_alive (sim.get_relations entity).owner = true)
    (hflower : sim.is_dead_flower (sim.get_relations entity).owner = false)
    (hnear : rr_vector_magnitude_cmp (summon_delta sim entity st) 5000 ≠ 1) :
    tick_summon_return_to_owner env entity sim st =
      if st.ai.ai_type.val ≤ rr_ai_type_passive.val ∨ 0 < st.physical.stun_ticks then
        (false, st)
      else if st.ai.ai_state = rr_ai_state_returning_to_owner ∧
          rr_vector_magnitude_cmp (summon_delta sim entity st) (250 + st.physical.radius) = 1 then
        (true, steer_towards env (summon_delta sim entity st) st)
      else if rr_vector_magnitude_cmp (summon_delta sim entity st)
          (1000 + st.physical.radius) = 1 then
        (true, steer_towards env (summon_delta sim entity st)
          { st with ai := { st.ai with ai_state := rr_ai_state_returning_to_owner } })
      else if st.ai.ai_state = rr_ai_state_returning_to_owner then
        (false, { st with
          ai := { st.ai with ai_state := rr_ai_state_idle,
                             ticks_until_next_action := sim.rand_seq st.rand_calls % 25 + 25 },
          rand_calls := st.rand_calls + 1 })
      else (false, st) := by
  have howner : ¬ (sim.entity_alive (sim.get_relations entity).owner = false ∨
      sim.is_dead_flower (sim.get_relations entity).owner = true) := by
    simp [halive, hflower]
  unfold tick_summon_return_to_owner
  simp only
  rw [if_neg howner]
  unfold summon_delta summon_anchor at hnear ⊢
  rw [if_neg hnear]
  rfl

/-- C11, as stated, fails: a mob of radius 4500 standing 5200 units from its
live owner is not returning and is within `1000 + radius` of the anchor, yet
it is beyond the leash of 5000 units, so its deletion is requested and the
call returns true. -/
theorem tick_summon_near_counterexample :
    (sample_sim ℝ 0 7).entity_alive ((sample_sim ℝ 0 7).get_relations 1).owner = true ∧
    (sample_sim ℝ 0 7).is_dead_flower ((sample_sim ℝ 0 7).get_relations 1).owner = false ∧
    0 ≤ (sample_state_radius ℝ (sample_ai ℝ 0 rr_ai_state_idle rr_ai_type_aggro 0)
      5200 0 4500).physical.radius ∧
    (sample_state_radius ℝ (sample_ai ℝ 0 rr_ai_state_idle rr_ai_type_aggro 0)
      5200 0 4500).ai.ai_state ≠ rr_ai_state_returning_to_owner ∧
    Real.sqrt
      ((summon_delta (sample_sim ℝ 0 7) 1
          (sample_state_radius ℝ (sample_ai ℝ 0 rr_ai_state_idle rr_ai_type_aggro 0)
            5200 0 4500)).x ^ 2 +
       (summon_delta (sample_sim ℝ 0 7) 1
          (sample_state_radius ℝ (sample_ai ℝ 0 rr_ai_state_idle rr_ai_type_aggro 0)
            5200 0 4500)).y ^ 2) ≤
      1000 + (sample_state_radius ℝ (sample_ai ℝ 0 rr_ai_state_idle rr_ai_type_aggro 0)
        5200 0 4500).physical.radius ∧
    (tick_summon_return_to_owner (sample_env ℝ Real.sqrt Real.cos Real.sin Real.pi) 1
      (sample_sim ℝ 0 7)
      (sample_state_radius ℝ (sample_ai ℝ 0 rr_ai_state_idle rr_ai_type_aggro 0)
        5200 0 4500)).1 = true ∧
    (tick_summon_return_to_owner (sample_env ℝ Real.sqrt Real.cos Real.sin Real.pi) 1
      (sample_sim ℝ 0 7)
      (sample_state_radius ℝ (sample_ai ℝ 0 rr_ai_state_idle rr_ai_type_aggro 0)
        5200 0 4500)).2.deletion_requests = [1] := by
  refine ⟨rfl, rfl, ?_, by decide, ?_, ?_, ?_⟩
  · norm_num [sample_state_radius, sample_physical]
  · rw [Real.sqrt_le_left (by norm_num [sample_state_radius, sample_physical])]
    norm_num [summon_delta, summon_anchor, sample_sim, sample_state_radius, sample_physical,
      RR_NULL_ENTITY]
  · norm_num [tick_summon_return_to_owner, sample_sim, sample_state_radius, sample_physical,
      RR_NULL_ENTITY, rr_vector_magnitude_cmp]
  · norm_num [tick_summon_return_to_owner, sample_sim, sample_state_radius, sample_physical,
      RR_NULL_ENTITY, rr_vector_magnitude_cmp, rr_simulation_request_entity_deletion]

/-- C11, amended: over the reals, for a summoned mob with a live owner, a
radius `>= 0`, a behaviour state other than returningToOwner and a distance to
its anchor of at most `1000 + radius` and at most 5000,
`tick_summon_return_to_owner` returns false and writes nothing: AI state,
physical state, deletion requests and random source are as before. -/
theorem tick_summon_near (env : rr_env ℝ) (entity : EntityIdx)
    (sim : rr_simulation ℝ) (st : rr_state ℝ)
    (halive : sim.entity_alive (sim.get_relations entity).owner = true)
    (hflower : sim.is_dead_flower (sim.get_relations entity).owner = false)
    (hradius : 0 ≤ st.physical.radius)
    (hstate : st.ai.ai_state ≠ rr_ai_state_returning_to_owner)
    (hnear : Real.sqrt ((summon_delta sim entity st).x ^ 2 +
      (summon_delta sim entity st).y ^ 2) ≤ 1000 + st.physical.radius)
    (hleash : Real.sqrt ((summon_delta sim entity st).x ^ 2 +
      (summon_delta sim entity st).y ^ 2) ≤ 5000) :
    (tick_summon_return_to_owner env entity sim st).1 = false ∧
    (tick_summon_return_to_owner env entity sim st).2 = st := by
  have h5000 := (rr_vector_magnitude_cmp_ne_one (summon_delta sim entity st) 5000
    (by norm_num)).mpr hleash
  have h1000 := (rr_vector_magnitude_cmp_ne_one (summon_delta sim entity st)
    (1000 + st.physical.radius) (by linarith)).mpr hnear
  rw [tick_summon_return_to_owner_leashed env entity sim st halive hflower h5000]
  by_cases hpassive : st.ai.ai_type.val ≤ rr_ai_type_passive.val ∨ 0 < st.physical.stun_ticks
  · rw [if_pos hpassive]
    exact ⟨rfl, rfl⟩
  · rw [if_neg hpassive, if_neg (fun h => hstate h.1), if_neg h1000, if_neg hstate]
    exact ⟨rfl, rfl⟩

/-- C11, amended, at a concrete input: an idle mob 200 units from its live
owner `7`. -/
theorem tick_summon_near_witness :
    (tick_summon_return_to_owner (sample_env ℝ Real.sqrt Real.cos Real.sin Real.pi) 1
      (sample_sim ℝ 0 7)
      (sample_state ℝ (sample_ai ℝ 0 rr_ai_state_idle rr_ai_type_aggro 0) 200 0)).1 = false ∧
    (tick_summon_return_to_owner (sample_env ℝ Real.sqrt Real.cos Real.sin Real.pi) 1
      (sample_sim ℝ 0 7)
      (sample_state ℝ (sample_ai ℝ 0 rr_ai_state_idle rr_ai_type_aggro 0) 200 0)).2 =
      sample_state ℝ (sample_ai ℝ 0 rr_ai_state_idle rr_ai_type_aggro 0) 200 0 :=
  tick_summon_near (sample_env ℝ Real.sqrt Real.cos Real.sin Real.pi) 1 (sample_sim ℝ 0 7)
    (sample_state ℝ (sample_ai ℝ 0 rr_ai_state_idle rr_ai_type_aggro 0) 200 0)
    rfl rfl (by norm_num [sample_state, sample_physical]) (by decide)
    (by
      rw [Real.sqrt_le_left (by norm_num [sample_state, sample_physical])]
      norm_num [summon_delta, summon_anchor, sample_sim, sample_state, sample_physical,
        RR_NULL_ENTITY])
    (by
      rw [Real.sqrt_le_left (by norm_num)]
      norm_num [summon_delta, summon_anchor, sample_sim, sample_state, sample_physical,
        RR_NULL_ENTITY])

/-- C15: over the reals, for a summoned mob with a live owner, distance `d` to
its anchor at most 5000, temperament above passive and stun counter 0: after
`tick_summon_return_to_owner` the state is returningToOwner exactly when (it
was returningToOwner and `d > 250 + radius`) or `d > 1000 + radius`, and then
the target is null and the call returns true; if it was returningToOwner and
`d <= 250 + radius`, the state becomes idle with the countdown in `[25, 49]`
and the call returns false. -/
theorem tick_summon_transition (env : rr_env ℝ) (entity : EntityIdx)
    (sim : rr_simulation ℝ) (st : rr_state ℝ)
    (halive : sim.entity_alive (sim.get_relations entity).owner = true)
    (hflower : sim.is_dead_flower (sim.get_relations entity).owner = false)
    (hleash : Real.sqrt ((summon_delta sim entity st).x ^ 2 +
      (summon_delta sim entity st).y ^ 2) ≤ 5000)
    (htype : rr_ai_type_passive.val < st.ai.ai_type.val)
    (hstun : st.physical.stun_ticks = 0) :
    ((tick_summon_return_to_owner env entity sim st).2.ai.ai_state =
        rr_ai_state_returning_to_owner ↔
      (st.ai.ai_state = rr_ai_state_returning_to_owner ∧
        250 + st.physical.radius < Real.sqrt ((summon_delta sim entity st).x ^ 2 +
          (summon_delta sim entity st).y ^ 2)) ∨
      1000 + st.physical.radius < Real.sqrt ((summon_delta sim entity st).x ^ 2 +
        (summon_delta sim entity st).y ^ 2)) ∧
    ((tick_summon_return_to_owner env entity sim st).2.ai.ai_state =
        rr_ai_state_returning_to_owner →
      (tick_summon_return_to_owner env entity sim st).2.ai.target_entity = RR_NULL_ENTITY ∧
      (tick_summon_return_to_owner env entity sim st).1 = true) ∧
    (st.ai.ai_state = rr_ai_state_returning_to_owner →
      Real.sqrt ((summon_delta sim entity st).x ^ 2 + (summon_delta sim entity st).y ^ 2) ≤
        250 + st.physical.radius →
      (tick_summon_return_to_owner env entity sim st).2.ai.ai_state = rr_ai_state_idle ∧
      25 ≤ (tick_summon_return_to_owner env entity sim st).2.ai.ticks_until_next_action ∧
      (tick_summon_return_to_owner env entity sim st).2.ai.ticks_until_next_action ≤ 49 ∧
      (tick_summon_return_to_owner env entity sim st).1 = false) := by
  have h5000 := (rr_vector_magnitude_cmp_ne_one (summon_delta sim entity st) 5000
    (by norm_num)).mpr hleash
  have h250 := rr_vector_magnitude_cmp_longer (summon_delta sim entity st)
    (250 + st.physical.radius)
  have h1000 := rr_vector_magnitude_cmp_longer (summon_delta sim entity st)
    (1000 + st.physical.radius)
  have hpassive : ¬ (st.ai.ai_type.val ≤ rr_ai_type_passive.val ∨ 0 < st.physical.stun_ticks) := by
    rw [hstun]
    intro h
    rcases h with h | h
    · exact absurd htype (not_lt.mpr h)
    · exact absurd h (by decide)
  have hmod := Nat.mod_lt (sim.rand_seq st.rand_calls) (by decide : 0 < 25)
  rw [tick_summon_return_to_owner_leashed env entity sim st halive hflower h5000,
    if_neg hpassive]
  by_cases hA : st.ai.ai_state = rr_ai_state_returning_to_owner ∧
      rr_vector_magnitude_cmp (summon_delta sim entity st) (250 + st.physical.radius) = 1
  · rw [if_pos hA]
    have hA2 := h250.mp hA.2
    exact ⟨⟨fun _ => Or.inl ⟨hA.1, hA2⟩, fun _ => hA.1⟩, fun _ => ⟨rfl, rfl⟩,
      fun _ hd => absurd hA2 (not_lt.mpr hd)⟩
  · rw [if_neg hA]
    by_cases hB : rr_vector_magnitude_cmp (summon_delta sim entity st)
        (1000 + st.physical.radius) = 1
    · rw [if_pos hB]
      have hB2 := h1000.mp hB
      exact ⟨⟨fun _ => Or.inr hB2, fun _ => rfl⟩, fun _ => ⟨rfl, rfl⟩,
        fun _ hd => absurd hB2 (by linarith)⟩
    · rw [if_neg hB]
      have hB2 : ¬ 1000 + st.physical.radius < Real.sqrt ((summon_delta sim entity st).x ^ 2 +
          (summon_delta sim entity st).y ^ 2) := fun h => hB (h1000.mpr h)
      by_cases hC : st.ai.ai_state = rr_ai_state_returning_to_owner
      · rw [if_pos hC]
        have hA2 : ¬ 250 + st.physical.radius < Real.sqrt ((summon_delta sim entity st).x ^ 2 +
            (summon_delta sim entity st).y ^ 2) := fun h => hA ⟨hC, h250.mpr h⟩
        refine ⟨⟨fun h => ?_, fun h => h.elim (fun h => absurd h.2 hA2) (fun h => absurd h hB2)⟩,
          fun h => ?_, fun _ _ => ⟨rfl, Nat.le_add_left 25 _, ?_, rfl⟩⟩
        · exact absurd (show rr_ai_state_idle = rr_ai_state_returning_to_owner from h)
            (by decide)
        · exact absurd (show rr_ai_state_idle = rr_ai_state_returning_to_owner from h)
            (by decide)
        · show sim.rand_seq st.rand_calls % 25 + 25 ≤ 49
          omega
      · rw [if_neg hC]
        exact ⟨⟨fun h => absurd h hC,
          fun h => h.elim (fun h => absurd h.1 hC) (fun h => absurd h hB2)⟩,
          fun h => absurd h hC, fun h => absurd h hC⟩

/-- C15 at a concrete input: a returning aggressive mob 2000 units from its
live owner `7` keeps returning. -/
theorem tick_summon_transition_witness :
    (tick_summon_return_to_owner (sample_env ℝ Real.sqrt Real.cos Real.sin Real.pi) 1
      (sample_sim ℝ 0 7)
      (sample_state ℝ (sample_ai ℝ 3 rr_ai_state_returning_to_owner rr_ai_type_aggro 0)
        2000 0)).2.ai.target_entity = RR_NULL_ENTITY ∧
    (tick_summon_return_to_owner (sample_env ℝ Real.sqrt Real.cos Real.sin Real.pi) 1
      (sample_sim ℝ 0 7)
      (sample_state ℝ (sample_ai ℝ 3 rr_ai_state_returning_to_owner rr_ai_type_aggro 0)
        2000 0)).1 = true :=
  have h := tick_summon_transition (sample_env ℝ Real.sqrt Real.cos Real.sin Real.pi) 1
    (sample_sim ℝ 0 7)
    (sample_state ℝ (sample_ai ℝ 3 rr_ai_state_returning_to_owner rr_ai_type_aggro 0) 2000 0)
    rfl rfl
    (by
      rw [Real.sqrt_le_left (by norm_num)]
      norm_num [summon_delta, summon_anchor, sample_sim, sample_state, sample_physical,
        RR_NULL_ENTITY])
    (by decide) rfl
  h.2.1 (h.1.mpr (Or.inr (by
    rw [Real.lt_sqrt (by norm_num [sample_state, sample_physical])]
    norm_num [summon_delta, summon_anchor, sample_sim, sample_state, sample_physical,
      RR_NULL_ENTITY])))

/-- C16: over the reals, for a summoned mob with a live owner and distance to
its anchor at most 5000 that is stunned or whose temperament is passive or
below, `tick_summon_return_to_owner` returns false and writes nothing (AI
state, physical state, deletion requests), also when the mob is returning or
farther than `1000 + radius` from the anchor. -/
theorem tick_summon_stunned_or_passive (env : rr_env ℝ) (entity : EntityIdx)
    (sim : rr_simulation ℝ) (st : rr_state ℝ)
    (halive : sim.entity_alive (sim.get_relations entity).owner = true)
    (hflower : sim.is_dead_flower (sim.get_relations entity).owner = false)
    (hleash : Real.sqrt ((summon_delta sim entity st).x ^ 2 +
      (summon_delta sim entity st).y ^ 2) ≤ 5000)
    (hpassive : 0 < st.physical.stun_ticks ∨ st.ai.ai_type.val ≤ rr_ai_type_passive.val) :
    (tick_summon_return_to_owner env entity sim st).1 = false ∧
    (tick_summon_return_to_owner env entity sim st).2 = st := by
  have h5000 := (rr_vector_magnitude_cmp_ne_one (summon_delta sim entity st) 5000
    (by norm_num)).mpr hleash
  rw [tick_summon_return_to_owner_leashed env entity sim st halive hflower h5000,
    if_pos hpassive.symm]
  exact ⟨rfl, rfl⟩

/-- C16 at a concrete input: a passive mob in state returningToOwner, 2000
units from its live owner `7`. -/
theorem tick_summon_stunned_or_passive_witness :
    (tick_summon_return_to_owner (sample_env ℝ Real.sqrt Real.cos Real.sin Real.pi) 1
      (sample_sim ℝ 0 7)
      (sample_state ℝ (sample_ai ℝ 3 rr_ai_state_returning_to_owner rr_ai_type_passive 0)
        2000 0)).1 = false ∧
    (tick_summon_return_to_owner (sample_env ℝ Real.sqrt Real.cos Real.sin Real.pi) 1
      (sample_sim ℝ 0 7)
      (sample_state ℝ (sample_ai ℝ 3 rr_ai_state_returning_to_owner rr_ai_type_passive 0)
        2000 0)).2 =
      sample_state ℝ (sample_ai ℝ 3 rr_ai_state_returning_to_owner rr_ai_type_passive 0)
        2000 0 :=
  tick_summon_stunned_or_passive (sample_env ℝ Real.sqrt Real.cos Real.sin Real.pi) 1
    (sample_sim ℝ 0 7)
    (sample_state ℝ (sample_ai ℝ 3 rr_ai_state_returning_to_owner rr_ai_type_passive 0) 2000 0)
    rfl rfl
    (by
      rw [Real.sqrt_le_left (by norm_num)]
      norm_num [summon_delta, summon_anchor, sample_sim, sample_state, sample_physical,
        RR_NULL_ENTITY])
    (Or.inr (by decide))

/-- The state a mob is left in when the scan settles on the representative
cell `(x, y)`: the anchor is the cell's index times the cell size and the
state is returningToHigherZone. -/
theorem higher_zone_scan_cons (arena : rr_component_arena F) (grid_x grid_y : Int)
    (st : rr_state F) (lookups : List (Int × Int)) (p : Int × Int)
    (rest : List (Int × Int)) :
    (higher_zone_scan arena grid_x grid_y st lookups (p :: rest)).1 =
      if is_higher_zone_cell arena grid_x grid_y p = true then
        { st with ai := { st.ai with
            return_pos := ⟨(representative_index grid_x p.1 : F) * arena.maze.grid_size,
              (representative_index grid_y p.2 : F) * arena.maze.grid_size⟩,
            ai_state := rr_ai_state_returning_to_higher_zone } }
      else
        (higher_zone_scan arena grid_x grid_y st
          (if 0 ≤ representative_index grid_x p.1 ∧
              representative_index grid_x p.1 < (arena.maze.maze_dim : Int) ∧
              0 ≤ representative_index grid_y p.2 ∧
              representative_index grid_y p.2 < (arena.maze.maze_dim : Int) then
            lookups ++ [(representative_index grid_x p.1, representative_index grid_y p.2)]
          else lookups) rest).1 := by
  obtain ⟨i, j⟩ := p
  rw [higher_zone_scan]
  simp only [is_higher_zone_cell, decide_eq_true_eq]
  by_cases hout : representative_index grid_x i < 0 ∨
      (arena.maze.maze_dim : Int) ≤ representative_index grid_x i ∨
      representative_index grid_y j < 0 ∨
      (arena.maze.maze_dim : Int) ≤ representative_index grid_y j
  · have hin : ¬ (0 ≤ representative_index grid_x i ∧
        representative_index grid_x i < (arena.maze.maze_dim : Int) ∧
        0 ≤ representative_index grid_y j ∧
        representative_index grid_y j < (arena.maze.maze_dim : Int)) := by
      intro h; omega
    have hcell : ¬ (0 ≤ representative_index grid_x i ∧
        representative_index grid_x i < (arena.maze.maze_dim : Int) ∧
        0 ≤ representative_index grid_y j ∧
        representative_index grid_y j < (arena.maze.maze_dim : Int) ∧
        48 ≤ (arena.get_grid (representative_index grid_x i)
          (representative_index grid_y j)).difficulty) := by
      intro h; omega
    rw [if_pos hout, if_neg hcell, if_neg hin]
  · have hin : 0 ≤ representative_index grid_x i ∧
        representative_index grid_x i < (arena.maze.maze_dim : Int) ∧
        0 ≤ representative_index grid_y j ∧
        representative_index grid_y j < (arena.maze.maze_dim : Int) := by
      omega
    rw [if_neg hout, if_pos hin]
    by_cases hlow : (arena.get_grid (representative_index grid_x i)
        (representative_index grid_y j)).difficulty < 48
    · have hcell : ¬ (0 ≤ representative_index grid_x i ∧
          representative_index grid_x i < (arena.maze.maze_dim : Int) ∧
          0 ≤ representative_index grid_y j ∧
          representative_index grid_y j < (arena.maze.maze_dim : Int) ∧
          48 ≤ (arena.get_grid (representative_index grid_x i)
            (representative_index grid_y j)).difficulty) :=
        fun h => absurd hlow (not_lt.mpr h.2.2.2.2)
      rw [if_pos hlow, if_neg hcell]
    · have hcell : 0 ≤ representative_index grid_x i ∧
          representative_index grid_x i < (arena.maze.maze_dim : Int) ∧
          0 ≤ representative_index grid_y j ∧
          representative_index grid_y j < (arena.maze.maze_dim : Int) ∧
          48 ≤ (arena.get_grid (representative_index grid_x i)
            (representative_index grid_y j)).difficulty :=
        ⟨hin.1, hin.2.1, hin.2.2.1, hin.2.2.2, not_lt.mp hlow⟩
      rw [if_neg hlow, if_pos hcell]
      rfl

/-- The scan leaves the mob as the first macro-cell of its list whose
representative cell is inside the grid and of difficulty at least 48
dictates, and untouched when there is none. -/
theorem higher_zone_scan_find (arena : rr_component_arena F) (grid_x grid_y : Int)
    (st : rr_state F) (offsets : List (Int × Int)) :
    ∀ lookups : List (Int × Int),
    (higher_zone_scan arena grid_x grid_y st lookups offsets).1 =
      match offsets.find? (is_higher_zone_cell arena grid_x grid_y) with
      | none => st
      | some p =>
        { st with ai := { st.ai with
            return_pos := ⟨(representative_index grid_x p.1 : F) * arena.maze.grid_size,
              (representative_index grid_y p.2 : F) * arena.maze.grid_size⟩,
            ai_state := rr_ai_state_returning_to_higher_zone } } := by
  induction offsets with
  | nil => intro lookups; rfl
  | cons p rest ih =>
    intro lookups
    rw [higher_zone_scan_cons, List.find?_cons]
    by_cases hp : is_higher_zone_cell arena grid_x grid_y p = true
    · rw [if_pos hp, hp]
    · rw [if_neg hp, ih]
      simp only [Bool.not_eq_true] at hp
      rw [hp]

/-- Every index the scan adds to the lookups lies inside the grid. -/
theorem higher_zone_scan_lookups (arena : rr_component_arena F) (grid_x grid_y : Int)
    (st : rr_state F) (offsets : List (Int × Int)) :
    ∀ lookups : List (Int × Int),
    (∀ p ∈ lookups, 0 ≤ p.1 ∧ p.1 ≤ (arena.maze.maze_dim : Int) - 1 ∧
      0 ≤ p.2 ∧ p.2 ≤ (arena.maze.maze_dim : Int) - 1) →
    ∀ p ∈ (higher_zone_scan arena grid_x grid_y st lookups offsets).2,
      0 ≤ p.1 ∧ p.1 ≤ (arena.maze.maze_dim : Int) - 1 ∧
      0 ≤ p.2 ∧ p.2 ≤ (arena.maze.maze_dim : Int) - 1 := by
  induction offsets with
  | nil => intro lookups h; exact h
  | cons q rest ih =>
    obtain ⟨i, j⟩ := q
    intro lookups h
    rw [higher_zone_scan]
    simp only
    by_cases hout : representative_index grid_x i < 0 ∨
        (arena.maze.maze_dim : Int) ≤ representative_index grid_x i ∨
        representative_index grid_y j < 0 ∨
        (arena.maze.maze_dim : Int) ≤ representative_index grid_y j
    · rw [if_pos hout]
      exact ih lookups h
    · rw [if_neg hout]
      have hnew : ∀ p ∈ lookups ++
          [(representative_index grid_x i, representative_index grid_y j)],
          0 ≤ p.1 ∧ p.1 ≤ (arena.maze.maze_dim : Int) - 1 ∧
          0 ≤ p.2 ∧ p.2 ≤ (arena.maze.maze_dim : Int) - 1 := by
        intro p hp
        rcases List.mem_append.mp hp with hp | hp
        · exact h p hp
        · rw [List.mem_singleton] at hp
          subst hp
          simp only
          omega
      by_cases hlow : (arena.get_grid (representative_index grid_x i)
          (representative_index grid_y j)).difficulty < 48
      · rw [if_pos hlow]
        exact ih _ hnew
      · rw [if_neg hlow]
        exact hnew

/-- Outside the returning state and at or above the rarity `ultimate`,
`tick_return_to_higher_zone` comes down to the test of the cell under the mob
followed by the scan. -/
theorem higher_zone_free_unfold [FloorRing F] (env : rr_env F)
    (rr_rarity_id_ultimate : Nat) (mob : rr_component_mob) (arena : rr_component_arena F)
    (sim : rr_simulation F) (st : rr_state F)
    (hstate : st.ai.ai_state ≠ rr_ai_state_returning_to_higher_zone)
    (hrarity : ¬ mob.rarity < rr_rarity_id_ultimate) :
    tick_return_to_higher_zone env rr_rarity_id_ultimate mob arena sim st =
      if 48 ≤ (arena.get_grid (grid_index arena st.physical.x)
            (grid_index arena st.physical.y)).difficulty ∨
          (arena.get_grid (grid_index arena st.physical.x)
            (grid_index arena st.physical.y)).value = 0 ∨
          (arena.get_grid (grid_index arena st.physical.x)
            (grid_index arena st.physical.y)).value &&& 8 ≠ 0 then
        (st, [(grid_index arena st.physical.x, grid_index arena st.physical.y)])
      else
        higher_zone_scan arena (grid_index arena st.physical.x) (grid_index arena st.physical.y)
          st [(grid_index arena st.physical.x, grid_index arena st.physical.y)] scan_offsets := by
  unfold tick_return_to_higher_zone
  rw [if_neg hstate, if_neg hrarity]

/-- The grid index under any coordinate lies inside a grid with at least one
cell per side. -/
theorem grid_index_bounds [FloorRing F] (arena : rr_component_arena F) (v : F)
    (hdim : 1 ≤ arena.maze.maze_dim) :
    0 ≤ grid_index arena v ∧ grid_index arena v ≤ (arena.maze.maze_dim : Int) - 1 := by
  have hhi : (0 : Int) ≤ (arena.maze.maze_dim : Int) - 1 := by omega
  have hhiF : (0 : F) ≤ (((arena.maze.maze_dim : Int) - 1 : Int) : F) := Int.cast_nonneg.mpr hhi
  have hclamp : 0 ≤ rr_fclamp (v / arena.maze.grid_size) 0
        (((arena.maze.maze_dim : Int) - 1 : Int) : F) ∧
      rr_fclamp (v / arena.maze.grid_size) 0 (((arena.maze.maze_dim : Int) - 1 : Int) : F) ≤
        (((arena.maze.maze_dim : Int) - 1 : Int) : F) := by
    unfold rr_fclamp
    by_cases h1 : v / arena.maze.grid_size < 0
    · rw [if_pos h1]; exact ⟨le_refl 0, hhiF⟩
    · rw [if_neg h1]
      by_cases h2 : (((arena.maze.maze_dim : Int) - 1 : Int) : F) < v / arena.maze.grid_size
      · rw [if_pos h2]; exact ⟨hhiF, le_refl _⟩
      · rw [if_neg h2]; exact ⟨not_lt.mp h1, not_lt.mp h2⟩
  unfold grid_index float_to_int32
  rw [if_pos hclamp.1]
  refine ⟨Int.floor_nonneg.mpr hclamp.1, ?_⟩
  have := Int.floor_le_floor hclamp.2
  rwa [Int.floor_intCast] at this

/-- C12: for a mob of rarity below `ultimate` that is not in state
returningToHigherZone, whatever the arena grid, `tick_return_to_higher_zone`
leaves the state different from returningToHigherZone and the return anchor
unchanged; indeed it writes nothing and looks no cell up. -/
theorem tick_return_to_higher_zone_low_rarity [FloorRing F] (env : rr_env F)
    (rr_rarity_id_ultimate : Nat) (mob : rr_component_mob) (arena : rr_component_arena F)
    (sim : rr_simulation F) (st : rr_state F)
    (hrarity : mob.rarity < rr_rarity_id_ultimate)
    (hstate : st.ai.ai_state ≠ rr_ai_state_returning_to_higher_zone) :
    (tick_return_to_higher_zone env rr_rarity_id_ultimate mob arena sim st).1.ai.ai_state ≠
      rr_ai_state_returning_to_higher_zone ∧
    (tick_return_to_higher_zone env rr_rarity_id_ultimate mob arena sim st).1.ai.return_pos =
      st.ai.return_pos ∧
    tick_return_to_higher_zone env rr_rarity_id_ultimate mob arena sim st = (st, []) := by
  have h : tick_return_to_higher_zone env rr_rarity_id_ultimate mob arena sim st = (st, []) := by
    unfold tick_return_to_higher_zone
    rw [if_neg hstate, if_pos hrarity]
  rw [h]
  exact ⟨hstate, rfl, rfl⟩

/-- C12 at a concrete input: a mob of rarity 6, with `ultimate = 7`, on the
cell `(2, 2)` of the sample arena, next to the cell of difficulty 52. -/
theorem tick_return_to_higher_zone_low_rarity_witness :
    (tick_return_to_higher_zone (sample_env ℚ id id id 3) 7 ⟨6⟩ (sample_arena ℚ)
      (sample_sim ℚ 0 0)
      (sample_state ℚ (sample_ai ℚ 0 rr_ai_state_idle rr_ai_type_aggro 0)
        250 250)).1.ai.ai_state ≠ rr_ai_state_returning_to_higher_zone ∧
    (tick_return_to_higher_zone (sample_env ℚ id id id 3) 7 ⟨6⟩ (sample_arena ℚ)
      (sample_sim ℚ 0 0)
      (sample_state ℚ (sample_ai ℚ 0 rr_ai_state_idle rr_ai_type_aggro 0)
        250 250)).1.ai.return_pos = ⟨0, 0⟩ :=
  ⟨(tick_return_to_higher_zone_low_rarity (sample_env ℚ id id id 3) 7 ⟨6⟩ (sample_arena ℚ)
      (sample_sim ℚ 0 0)
      (sample_state ℚ (sample_ai ℚ 0 rr_ai_state_idle rr_ai_type_aggro 0) 250 250)
      (by decide) (by decide)).1,
   (tick_return_to_higher_zone_low_rarity (sample_env ℚ id id id 3) 7 ⟨6⟩ (sample_arena ℚ)
      (sample_sim ℚ 0 0)
      (sample_state ℚ (sample_ai ℚ 0 rr_ai_state_idle rr_ai_type_aggro 0) 250 250)
      (by decide) (by decide)).2.1⟩

/-- C14: for every position of the mob and every maze with `maze_dim >= 1`
and `grid_size > 0`, every grid lookup of `tick_return_to_higher_zone` (the
cell under the mob and the representative cells of the scan) has its column
and its row in `[0, maze_dim - 1]`. -/
theorem tick_return_to_higher_zone_lookups_in_bounds [FloorRing F] (env : rr_env F)
    (rr_rarity_id_ultimate : Nat) (mob : rr_component_mob) (arena : rr_component_arena F)
    (sim : rr_simulation F) (st : rr_state F)
    (hdim : 1 ≤ arena.maze.maze_dim) (_hsize : 0 < arena.maze.grid_size) :
    ∀ p ∈ (tick_return_to_higher_zone env rr_rarity_id_ultimate mob arena sim st).2,
      0 ≤ p.1 ∧ p.1 ≤ (arena.maze.maze_dim : Int) - 1 ∧
      0 ≤ p.2 ∧ p.2 ≤ (arena.maze.maze_dim : Int) - 1 := by
  have hx := grid_index_bounds arena st.physical.x hdim
  have hy := grid_index_bounds arena st.physical.y hdim
  have hfirst : ∀ p ∈ [(grid_index arena st.physical.x, grid_index arena st.physical.y)],
      0 ≤ p.1 ∧ p.1 ≤ (arena.maze.maze_dim : Int) - 1 ∧
      0 ≤ p.2 ∧ p.2 ≤ (arena.maze.maze_dim : Int) - 1 := by
    intro p hp
    rw [List.mem_singleton] at hp
    subst hp
    exact ⟨hx.1, hx.2, hy.1, hy.2⟩
  by_cases hstate : st.ai.ai_state = rr_ai_state_returning_to_higher_zone
  · intro p hp
    unfold tick_return_to_higher_zone at hp
    rw [if_pos hstate] at hp
    simp only at hp
    split at hp <;> exact absurd hp (List.not_mem_nil p)
  · by_cases hrarity : mob.rarity < rr_rarity_id_ultimate
    · intro p hp
      unfold tick_return_to_higher_zone at hp
      rw [if_neg hstate, if_pos hrarity] at hp
      exact absurd hp (List.not_mem_nil p)
    · rw [higher_zone_free_unfold env rr_rarity_id_ultimate mob arena sim st
        hstate hrarity]
      split
      · exact hfirst
      · exact higher_zone_scan_lookups arena _ _ st scan_offsets _ hfirst

/-- C14 at a concrete input: a mob at `(-250, 2500)`, outside the sample arena
on both axes; the cells looked up are `(0, 7)`, `(1, 5)`, `(1, 7)`, `(3, 5)`
and `(3, 7)`. -/
theorem tick_return_to_higher_zone_lookups_in_bounds_witness :
    ((tick_return_to_higher_zone (sample_env ℚ id id id 3) 7 ⟨7⟩ (sample_arena ℚ)
        (sample_sim ℚ 0 0)
        (sample_state ℚ (sample_ai ℚ 0 rr_ai_state_idle rr_ai_type_aggro 0)
          (-250) 2500)).2.all
      fun p => decide (0 ≤ p.1 ∧ p.1 ≤ ((sample_arena ℚ).maze.maze_dim : Int) - 1 ∧
        0 ≤ p.2 ∧ p.2 ≤ ((sample_arena ℚ).maze.maze_dim : Int) - 1)) = true :=
  List.all_eq_true.mpr fun p hp => decide_eq_true
    (tick_return_to_higher_zone_lookups_in_bounds (sample_env ℚ id id id 3) 7 ⟨7⟩
      (sample_arena ℚ) (sample_sim ℚ 0 0)
      (sample_state ℚ (sample_ai ℚ 0 rr_ai_state_idle rr_ai_type_aggro 0) (-250) 2500)
      (by decide) (by norm_num [sample_arena]) p hp)

/-- C17: over the reals, with `sqrt` the real square root and a positive base
speed, for a mob in state returningToHigherZone: if its distance to the return
anchor exceeds its radius, `tick_return_to_higher_zone` keeps the state, nulls
the target and adds to the acceleration a positive multiple of the vector from
the mob to the anchor; otherwise the state becomes idle with the countdown in
`[25, 49]` and the acceleration is untouched; in both cases the return anchor
is unchanged and no grid cell is looked up. -/
theorem tick_return_to_higher_zone_returning (env : rr_env ℝ) (hsqrt : env.sqrt = Real.sqrt)
    (hspeed : 0 < env.RR_PLAYER_SPEED) (rr_rarity_id_ultimate : Nat)
    (mob : rr_component_mob) (arena : rr_component_arena ℝ) (sim : rr_simulation ℝ)
    (st : rr_state ℝ)
    (hstate : st.ai.ai_state = rr_ai_state_returning_to_higher_zone) :
    (st.physical.radius < Real.sqrt ((return_delta st).x ^ 2 + (return_delta st).y ^ 2) →
      (tick_return_to_higher_zone env rr_rarity_id_ultimate mob arena sim st).1.ai.ai_state =
        rr_ai_state_returning_to_higher_zone ∧
      (tick_return_to_higher_zone env rr_rarity_id_ultimate mob arena sim st).1.ai.target_entity =
        RR_NULL_ENTITY ∧
      ∃ k : ℝ, 0 < k ∧
        (tick_return_to_higher_zone env rr_rarity_id_ultimate mob arena sim
            st).1.physical.acceleration =
          rr_vector_add st.physical.acceleration (rr_vector_scale (return_delta st) k)) ∧
    (Real.sqrt ((return_delta st).x ^ 2 + (return_delta st).y ^ 2) ≤ st.physical.radius →
      (tick_return_to_higher_zone env rr_rarity_id_ultimate mob arena sim st).1.ai.ai_state =
        rr_ai_state_idle ∧
      25 ≤ (tick_return_to_higher_zone env rr_rarity_id_ultimate mob arena sim
        st).1.ai.ticks_until_next_action ∧
      (tick_return_to_higher_zone env rr_rarity_id_ultimate mob arena sim
        st).1.ai.ticks_until_next_action ≤ 49 ∧
      (tick_return_to_higher_zone env rr_rarity_id_ultimate mob arena sim
        st).1.physical.acceleration = st.physical.acceleration) ∧
    (tick_return_to_higher_zone env rr_rarity_id_ultimate mob arena sim st).1.ai.return_pos =
      st.ai.return_pos ∧
    (tick_return_to_higher_zone env rr_rarity_id_ultimate mob arena sim st).2 = [] := by
  have hcmp := rr_vector_magnitude_cmp_longer (return_delta st) st.physical.radius
  have hmod := Nat.mod_lt (sim.rand_seq st.rand_calls) (by decide : 0 < 25)
  have heq : tick_return_to_higher_zone env rr_rarity_id_ultimate mob arena sim st =
      if rr_vector_magnitude_cmp (return_delta st) st.physical.radius = 1 then
        (steer_towards env (return_delta st) st, [])
      else
        ({ st with
            ai := { st.ai with ai_state := rr_ai_state_idle,
                               ticks_until_next_action := sim.rand_seq st.rand_calls % 25 + 25 },
            rand_calls := st.rand_calls + 1 }, []) := by
    unfold tick_return_to_higher_zone
    rw [if_pos hstate]
    rfl
  rw [heq]
  by_cases hfar : rr_vector_magnitude_cmp (return_delta st) st.physical.radius = 1
  · rw [if_pos hfar]
    have hd := hcmp.mp hfar
    refine ⟨fun _ => ⟨hstate, rfl, ?_⟩, fun h => absurd hd (not_lt.mpr h), rfl, rfl⟩
    by_cases hpos : 0 < Real.sqrt ((return_delta st).x ^ 2 + (return_delta st).y ^ 2)
    · refine ⟨env.RR_PLAYER_SPEED * 1.2 /
        env.sqrt ((return_delta st).x * (return_delta st).x +
          (return_delta st).y * (return_delta st).y), ?_, rfl⟩
      rw [hsqrt, ← pow_two, ← pow_two]
      apply div_pos _ hpos
      linarith
    · have hzero : (return_delta st).x ^ 2 + (return_delta st).y ^ 2 ≤ 0 :=
        Real.sqrt_eq_zero'.mp (le_antisymm (not_lt.mp hpos) (Real.sqrt_nonneg _))
      have hx : (return_delta st).x = 0 := by nlinarith [sq_nonneg (return_delta st).y]
      have hy : (return_delta st).y = 0 := by nlinarith [sq_nonneg (return_delta st).x]
      refine ⟨1, one_pos, ?_⟩
      simp [steer_towards, rr_vector_set_magnitude, rr_vector_scale, rr_vector_add,
        rr_component_physical_set_angle, hx, hy]
  · rw [if_neg hfar]
    refine ⟨fun h => absurd (hcmp.mpr h) hfar,
      fun _ => ⟨rfl, Nat.le_add_left 25 _, ?_, rfl⟩, rfl, rfl⟩
    show sim.rand_seq st.rand_calls % 25 + 25 ≤ 49
    omega

/-- C17 at a concrete input: a returning mob of radius 1 standing at
`(30, 40)`, 50 units from its return anchor, the origin. -/
theorem tick_return_to_higher_zone_returning_witness :
    (tick_return_to_higher_zone (sample_env ℝ Real.sqrt Real.cos Real.sin Real.pi) 7 ⟨7⟩
      (sample_arena ℝ) (sample_sim ℝ 0 0)
      (sample_state ℝ (sample_ai ℝ 3 rr_ai_state_returning_to_higher_zone rr_ai_type_aggro 0)
        30 40)).1.ai.ai_state = rr_ai_state_returning_to_higher_zone ∧
    (tick_return_to_higher_zone (sample_env ℝ Real.sqrt Real.cos Real.sin Real.pi) 7 ⟨7⟩
      (sample_arena ℝ) (sample_sim ℝ 0 0)
      (sample_state ℝ (sample_ai ℝ 3 rr_ai_state_returning_to_higher_zone rr_ai_type_aggro 0)
        30 40)).1.ai.target_entity = RR_NULL_ENTITY :=
  have h := (tick_return_to_higher_zone_returning
    (sample_env ℝ Real.sqrt Real.cos Real.sin Real.pi) rfl
    (by norm_num [sample_env]) 7 ⟨7⟩ (sample_arena ℝ) (sample_sim ℝ 0 0)
    (sample_state ℝ (sample_ai ℝ 3 rr_ai_state_returning_to_higher_zone rr_ai_type_aggro 0)
      30 40)
    rfl).1
    (by
      rw [Real.lt_sqrt (by norm_num [sample_state, sample_physical])]
      norm_num [return_delta, sample_state, sample_physical, sample_ai])
  ⟨h.1, h.2.1⟩

/-- The cell under a mob at coordinate `250` of the sample arena has index
`2`. -/
theorem grid_index_sample : grid_index (sample_arena ℚ) 250 = 2 := by
  norm_num [grid_index, rr_fclamp, float_to_int32, sample_arena, Int.floor_eq_iff]

/-- Around the cell `(2, 2)` of the sample arena the scan settles on the
macro-cell to the east. -/
theorem scan_offsets_find_sample :
    scan_offsets.find? (is_higher_zone_cell (sample_arena ℚ) 2 2) = some (1, 0) := by
  have h1 : representative_index 2 (-1) = 1 := by decide
  have h2 : representative_index 2 0 = 3 := by decide
  have h3 : representative_index 2 1 = 5 := by decide
  simp [scan_offsets, List.find?, is_higher_zone_cell, h1, h2, h3, sample_arena]
  norm_num

/-- On the sample arena, a mob of rarity `ultimate` standing at `(250, 250)`
ends in state returningToHigherZone with the anchor `(500, 300)`. -/
theorem tick_return_to_higher_zone_sample :
    (tick_return_to_higher_zone (sample_env ℚ id id id 3) 7 ⟨7⟩ (sample_arena ℚ)
      (sample_sim ℚ 0 0)
      (sample_state ℚ (sample_ai ℚ 0 rr_ai_state_idle rr_ai_type_aggro 0) 250 250)).1.ai =
    { sample_ai ℚ 0 rr_ai_state_idle rr_ai_type_aggro 0 with
      return_pos := ⟨500, 300⟩, ai_state := rr_ai_state_returning_to_higher_zone } := by
  have hfree := higher_zone_free_unfold (sample_env ℚ id id id 3) 7 ⟨7⟩
    (sample_arena ℚ) (sample_sim ℚ 0 0)
    (sample_state ℚ (sample_ai ℚ 0 rr_ai_state_idle rr_ai_type_aggro 0) 250 250)
    (by decide) (by decide)
  have hpos : (sample_state ℚ (sample_ai ℚ 0 rr_ai_state_idle rr_ai_type_aggro 0)
      250 250).physical.x = 250 ∧
      (sample_state ℚ (sample_ai ℚ 0 rr_ai_state_idle rr_ai_type_aggro 0)
      250 250).physical.y = 250 := ⟨rfl, rfl⟩
  rw [hpos.1, hpos.2, grid_index_sample] at hfree
  have hsafe : ¬ (48 ≤ ((sample_arena ℚ).get_grid 2 2).difficulty ∨
      ((sample_arena ℚ).get_grid 2 2).value = 0 ∨
      ((sample_arena ℚ).get_grid 2 2).value &&& 8 ≠ 0) := by
    norm_num [sample_arena]
  rw [if_neg hsafe] at hfree
  rw [hfree, higher_zone_scan_find, scan_offsets_find_sample]
  have h2 : representative_index 2 0 = 3 := by decide
  have h3 : representative_index 2 1 = 5 := by decide
  simp only [h2, h3, sample_arena, sample_state]
  norm_num

/-- C13, as stated, fails: on the sample arena (cells of size 100) a mob of
rarity `ultimate` stands at `(250, 250)`, on the cell `(2, 2)` of difficulty
10 and value 1; the only macro-cell around it whose representative cell has
difficulty at least 48 is the one to the east, with macro indices `(2, 1)`
and representative cell `(5, 3)` of difficulty 52. The mob ends in state
returningToHigherZone with the anchor `(500, 300)`, not the origin
`(400, 200)` of that macro-cell. -/
theorem tick_return_to_higher_zone_east_counterexample :
    (⟨7⟩ : rr_component_mob).rarity = 7 ∧
    (sample_state ℚ (sample_ai ℚ 0 rr_ai_state_idle rr_ai_type_aggro 0)
      250 250).ai.ai_state ≠ rr_ai_state_returning_to_higher_zone ∧
    grid_index (sample_arena ℚ)
      (sample_state ℚ (sample_ai ℚ 0 rr_ai_state_idle rr_ai_type_aggro 0)
        250 250).physical.x = 2 ∧
    grid_index (sample_arena ℚ)
      (sample_state ℚ (sample_ai ℚ 0 rr_ai_state_idle rr_ai_type_aggro 0)
        250 250).physical.y = 2 ∧
    ((sample_arena ℚ).get_grid 2 2).difficulty = 10 ∧
    ((sample_arena ℚ).get_grid 2 2).value = 1 ∧
    ((sample_arena ℚ).get_grid (representative_index 2 1)
      (representative_index 2 0)).difficulty = 52 ∧
    (∀ p ∈ scan_offsets, p ≠ (1, 0) → is_higher_zone_cell (sample_arena ℚ) 2 2 p = false) ∧
    (tick_return_to_higher_zone (sample_env ℚ id id id 3) 7 ⟨7⟩ (sample_arena ℚ)
      (sample_sim ℚ 0 0)
      (sample_state ℚ (sample_ai ℚ 0 rr_ai_state_idle rr_ai_type_aggro 0)
        250 250)).1.ai.ai_state = rr_ai_state_returning_to_higher_zone ∧
    (tick_return_to_higher_zone (sample_env ℚ id id id 3) 7 ⟨7⟩ (sample_arena ℚ)
      (sample_sim ℚ 0 0)
      (sample_state ℚ (sample_ai ℚ 0 rr_ai_state_idle rr_ai_type_aggro 0)
        250 250)).1.ai.return_pos = ⟨500, 300⟩ ∧
    (tick_return_to_higher_zone (sample_env ℚ id id id 3) 7 ⟨7⟩ (sample_arena ℚ)
      (sample_sim ℚ 0 0)
      (sample_state ℚ (sample_ai ℚ 0 rr_ai_state_idle rr_ai_type_aggro 0)
        250 250)).1.ai.return_pos ≠
      ⟨((2 * (Int.tdiv 2 2 + 1) : Int) : ℚ) * (sample_arena ℚ).maze.grid_size,
       ((2 * Int.tdiv 2 2 : Int) : ℚ) * (sample_arena ℚ).maze.grid_size⟩ := by
  have h1 : representative_index 2 (-1) = 1 := by decide
  have h2 : representative_index 2 0 = 3 := by decide
  have h3 : representative_index 2 1 = 5 := by decide
  have ht : Int.tdiv 2 2 = 1 := by decide
  refine ⟨rfl, by decide, grid_index_sample, grid_index_sample, ?_, ?_, ?_, ?_, ?_, ?_, ?_⟩
  · norm_num [sample_arena]
  · norm_num [sample_arena]
  · norm_num [sample_arena, h2, h3]
  · intro p hp hne
    simp only [scan_offsets, List.mem_cons, List.mem_singleton, List.not_mem_nil, or_false] at hp
    rcases hp with rfl | rfl | rfl | rfl | rfl | rfl | rfl | rfl | rfl
    all_goals first
      | exact absurd rfl hne
      | (simp [is_higher_zone_cell, h1, h2, h3, sample_arena]; try norm_num)
  · rw [tick_return_to_higher_zone_sample]
  · rw [tick_return_to_higher_zone_sample]
  · rw [tick_return_to_higher_zone_sample, ht]
    norm_num [sample_arena]

/-- C13, amended: for a mob of rarity `ultimate` that is not returning and
stands on a grid cell of difficulty 10 with a non-zero value and bit 3 clear,
when the only macro-cell of the surrounding 3x3 block whose representative
cell is inside the grid with difficulty at least 48 is the macro-cell
immediately east (difficulty 52), `tick_return_to_higher_zone` leaves the
state returningToHigherZone and the anchor at
`((2 * mx + 1) * grid_size, (2 * my + 1) * grid_size)`, the world position of
the representative cell of the macro-cell with macro indices `(mx, my)`. -/
theorem tick_return_to_higher_zone_east [FloorRing F] (env : rr_env F)
    (rr_rarity_id_ultimate : Nat) (mob : rr_component_mob) (arena : rr_component_arena F)
    (sim : rr_simulation F) (st : rr_state F)
    (hrarity : mob.rarity = rr_rarity_id_ultimate)
    (hstate : st.ai.ai_state ≠ rr_ai_state_returning_to_higher_zone)
    (hdifficulty : (arena.get_grid (grid_index arena st.physical.x)
      (grid_index arena st.physical.y)).difficulty = 10)
    (hvalue : (arena.get_grid (grid_index arena st.physical.x)
      (grid_index arena st.physical.y)).value ≠ 0)
    (hbit : (arena.get_grid (grid_index arena st.physical.x)
      (grid_index arena st.physical.y)).value &&& 8 = 0)
    (hinside : 0 ≤ representative_index (grid_index arena st.physical.x) 1 ∧
      representative_index (grid_index arena st.physical.x) 1 < (arena.maze.maze_dim : Int) ∧
      0 ≤ representative_index (grid_index arena st.physical.y) 0 ∧
      representative_index (grid_index arena st.physical.y) 0 < (arena.maze.maze_dim : Int))
    (heast : (arena.get_grid (representative_index (grid_index arena st.physical.x) 1)
      (representative_index (grid_index arena st.physical.y) 0)).difficulty = 52)
    (honly : ∀ p ∈ scan_offsets, p ≠ (1, 0) →
      is_higher_zone_cell arena (grid_index arena st.physical.x)
        (grid_index arena st.physical.y) p = false) :
    (tick_return_to_higher_zone env rr_rarity_id_ultimate mob arena sim st).1.ai.ai_state =
      rr_ai_state_returning_to_higher_zone ∧
    (tick_return_to_higher_zone env rr_rarity_id_ultimate mob arena sim st).1.ai.return_pos =
      ⟨((2 * (Int.tdiv (grid_index arena st.physical.x) 2 + 1) + 1 : Int) : F) *
          arena.maze.grid_size,
       ((2 * Int.tdiv (grid_index arena st.physical.y) 2 + 1 : Int) : F) *
          arena.maze.grid_size⟩ := by
  have hsafe : ¬ (48 ≤ (arena.get_grid (grid_index arena st.physical.x)
        (grid_index arena st.physical.y)).difficulty ∨
      (arena.get_grid (grid_index arena st.physical.x)
        (grid_index arena st.physical.y)).value = 0 ∨
      (arena.get_grid (grid_index arena st.physical.x)
        (grid_index arena st.physical.y)).value &&& 8 ≠ 0) := by
    rw [hdifficulty]
    intro h
    rcases h with h | h | h
    · norm_num at h
    · exact hvalue h
    · exact h hbit
  have hhit : is_higher_zone_cell arena (grid_index arena st.physical.x)
      (grid_index arena st.physical.y) (1, 0) = true := by
    unfold is_higher_zone_cell
    rw [decide_eq_true_eq, heast]
    exact ⟨hinside.1, hinside.2.1, hinside.2.2.1, hinside.2.2.2, by norm_num⟩
  have hfind : scan_offsets.find? (is_higher_zone_cell arena (grid_index arena st.physical.x)
      (grid_index arena st.physical.y)) = some (1, 0) := by
    simp only [scan_offsets, List.find?_cons,
      honly (-1, -1) (by decide) (by decide), honly (-1, 0) (by decide) (by decide),
      honly (-1, 1) (by decide) (by decide), honly (0, -1) (by decide) (by decide),
      honly (0, 0) (by decide) (by decide), honly (0, 1) (by decide) (by decide),
      honly (1, -1) (by decide) (by decide), hhit]
  rw [higher_zone_free_unfold env rr_rarity_id_ultimate mob arena sim st hstate
    (by omega), if_neg hsafe, higher_zone_scan_find, hfind]
  refine ⟨rfl, ?_⟩
  show (⟨_, _⟩ : rr_vector F) = _
  have ex : representative_index (grid_index arena st.physical.x) 1 =
      2 * (Int.tdiv (grid_index arena st.physical.x) 2 + 1) + 1 := by
    unfold representative_index; ring
  have ey : representative_index (grid_index arena st.physical.y) 0 =
      2 * Int.tdiv (grid_index arena st.physical.y) 2 + 1 := by
    unfold representative_index; ring
  rw [ex, ey]

/-- C13, amended, at a concrete input: the mob at `(250, 250)` of the sample
arena; the anchor is `((2 * 2 + 1) * 100, (2 * 1 + 1) * 100)`. -/
theorem tick_return_to_higher_zone_east_witness :
    (tick_return_to_higher_zone (sample_env ℚ id id id 3) 7 ⟨7⟩ (sample_arena ℚ)
      (sample_sim ℚ 0 0)
      (sample_state ℚ (sample_ai ℚ 0 rr_ai_state_idle rr_ai_type_aggro 0)
        250 250)).1.ai.ai_state = rr_ai_state_returning_to_higher_zone ∧
    (tick_return_to_higher_zone (sample_env ℚ id id id 3) 7 ⟨7⟩ (sample_arena ℚ)
      (sample_sim ℚ 0 0)
      (sample_state ℚ (sample_ai ℚ 0 rr_ai_state_idle rr_ai_type_aggro 0)
        250 250)).1.ai.return_pos =
      ⟨((2 * (Int.tdiv (grid_index (sample_arena ℚ)
          (sample_state ℚ (sample_ai ℚ 0 rr_ai_state_idle rr_ai_type_aggro 0)
            250 250).physical.x) 2 + 1) + 1 : Int) : ℚ) * (sample_arena ℚ).maze.grid_size,
       ((2 * Int.tdiv (grid_index (sample_arena ℚ)
          (sample_state ℚ (sample_ai ℚ 0 rr_ai_state_idle rr_ai_type_aggro 0)
            250 250).physical.y) 2 + 1 : Int) : ℚ) * (sample_arena ℚ).maze.grid_size⟩ :=
  have hx : grid_index (sample_arena ℚ)
      (sample_state ℚ (sample_ai ℚ 0 rr_ai_state_idle rr_ai_type_aggro 0)
        250 250).physical.x = 2 := grid_index_sample
  have hy : grid_index (sample_arena ℚ)
      (sample_state ℚ (sample_ai ℚ 0 rr_ai_state_idle rr_ai_type_aggro 0)
        250 250).physical.y = 2 := grid_index_sample
  have h1 : representative_index 2 (-1) = 1 := by decide
  have h2 : representative_index 2 0 = 3 := by decide
  have h3 : representative_index 2 1 = 5 := by decide
  tick_return_to_higher_zone_east (sample_env ℚ id id id 3) 7 ⟨7⟩ (sample_arena ℚ)
    (sample_sim ℚ 0 0)
    (sample_state ℚ (sample_ai ℚ 0 rr_ai_state_idle rr_ai_type_aggro 0) 250 250)
    rfl (by decide)
    (by rw [hx, hy]; norm_num [sample_arena])
    (by rw [hx, hy]; norm_num [sample_arena])
    (by rw [hx, hy]; norm_num [sample_arena])
    (by rw [hx, hy, h2, h3]; norm_num [sample_arena])
    (by rw [hx, hy, h2, h3]; norm_num [sample_arena])
    (by
      rw [hx, hy]
      intro p hp hne
      simp only [scan_offsets, List.mem_cons, List.mem_singleton, List.not_mem_nil,
        or_false] at hp
      rcases hp with rfl | rfl | rfl | rfl | rfl | rfl | rfl | rfl | rfl
      all_goals first
        | exact absurd rfl hne
        | (simp [is_higher_zone_cell, h1, h2, h3, sample_arena]; try norm_num))

/-- C19, as stated, fails: for a mob of team mobs with a null target, in a
world whose candidates are `5` and `7` and whose high-zone filter rejects `5`,
the re-acquisition step stores `7`, the answer of
`rr_simulation_choose_nearby_enemy` under the high-zone filter, whereas the
nearest-enemy search without a filter answers `5`. -/
theorem has_new_target_search_spec_counterexample :
    ((sample_sim_filtered ℚ rr_simulation_team_id_mobs).get_relations
      (sample_ai ℚ 0 rr_ai_state_idle rr_ai_type_aggro 0).parent_id).team =
      rr_simulation_team_id_mobs ∧
    (sample_ai ℚ 0 rr_ai_state_idle rr_ai_type_aggro 0).target_entity = RR_NULL_ENTITY ∧
    (has_new_target_reacquire (sample_sim_filtered ℚ rr_simulation_team_id_mobs)
      (sample_ai ℚ 0 rr_ai_state_idle rr_ai_type_aggro 0)).target_entity = 7 ∧
    (sample_sim_filtered ℚ rr_simulation_team_id_mobs).get_entity_hash
      ((sample_sim_filtered ℚ rr_simulation_team_id_mobs).find_nearest_enemy
        (sample_ai ℚ 0 rr_ai_state_idle rr_ai_type_aggro 0).parent_id
        (sample_ai ℚ 0 rr_ai_state_idle rr_ai_type_aggro 0).aggro_range
        (fun _ _ => true)) = 5 ∧
    (has_new_target_reacquire (sample_sim_filtered ℚ rr_simulation_team_id_mobs)
      (sample_ai ℚ 0 rr_ai_state_idle rr_ai_type_aggro 0)).target_entity ≠
    (sample_sim_filtered ℚ rr_simulation_team_id_mobs).get_entity_hash
      ((sample_sim_filtered ℚ rr_simulation_team_id_mobs).find_nearest_enemy
        (sample_ai ℚ 0 rr_ai_state_idle rr_ai_type_aggro 0).parent_id
        (sample_ai ℚ 0 rr_ai_state_idle rr_ai_type_aggro 0).aggro_range
        (fun _ _ => true)) := by
  decide

/-- C19, amended: for a mob whose current target is null or dead, the
re-acquisition step of `has_new_target` stores the handle of the answer of
`rr_simulation_choose_nearby_enemy` within the aggro range under the
high-zone filter when the mob is on team mobs, and otherwise the handle of
the answer of `rr_simulation_find_nearest_enemy` within the aggro range under
the filter `is_close_enough_to_parent` bound to the anchor (the nest if
present, else the owner), which accepts exactly the candidates whose squared
distance to the anchor is below `1000 * 1000`. -/
theorem has_new_target_search_spec (sim : rr_simulation F) (ai : rr_component_ai F)
    (htarget : ai.target_entity = RR_NULL_ENTITY ∨ sim.entity_alive ai.target_entity = false) :
    ((sim.get_relations ai.parent_id).team = rr_simulation_team_id_mobs →
      (has_new_target_reacquire sim ai).target_entity =
        sim.get_entity_hash
          (sim.choose_nearby_enemy ai.parent_id ai.aggro_range sim.high_zone_filter)) ∧
    ((sim.get_relations ai.parent_id).team ≠ rr_simulation_team_id_mobs →
      (has_new_target_reacquire sim ai).target_entity =
        sim.get_entity_hash
          (sim.find_nearest_enemy ai.parent_id ai.aggro_range
            (is_close_enough_to_parent sim (summon_anchor sim ai.parent_id)))) ∧
    (∀ seeker target : EntityIdx,
      is_close_enough_to_parent sim (summon_anchor sim ai.parent_id) seeker target = true ↔
        ((sim.get_physical target).x - (summon_anchor sim ai.parent_id).x) ^ 2 +
          ((sim.get_physical target).y - (summon_anchor sim ai.parent_id).y) ^ 2 <
        1000 ^ 2) := by
  refine ⟨fun hteam => ?_, fun hteam => ?_, fun seeker target => ?_⟩
  · unfold has_new_target_reacquire
    rw [if_pos htarget]
    simp only [if_pos hteam]
  · unfold has_new_target_reacquire
    rw [if_pos htarget]
    simp only [if_neg hteam]
    rfl
  · unfold is_close_enough_to_parent
    simp only [decide_eq_true_eq, pow_two]

/-- C19, amended, at a concrete input: the mob of team mobs with a null target
in the world whose high-zone filter rejects the candidate `5`. -/
theorem has_new_target_search_spec_witness :
    (has_new_target_reacquire (sample_sim_filtered ℚ rr_simulation_team_id_mobs)
      (sample_ai ℚ 0 rr_ai_state_idle rr_ai_type_aggro 0)).target_entity =
    (sample_sim_filtered ℚ rr_simulation_team_id_mobs).get_entity_hash
      ((sample_sim_filtered ℚ rr_simulation_team_id_mobs).choose_nearby_enemy
        (sample_ai ℚ 0 rr_ai_state_idle rr_ai_type_aggro 0).parent_id
        (sample_ai ℚ 0 rr_ai_state_idle rr_ai_type_aggro 0).aggro_range
        (sample_sim_filtered ℚ rr_simulation_team_id_mobs).high_zone_filter) :=
  (has_new_target_search_spec (sample_sim_filtered ℚ rr_simulation_team_id_mobs)
    (sample_ai ℚ 0 rr_ai_state_idle rr_ai_type_aggro 0) (Or.inl rfl)).1 rfl

/-- The re-acquisition step, with its search named. -/
theorem has_new_target_reacquire_eq (sim : rr_simulation F) (ai : rr_component_ai F) :
    has_new_target_reacquire sim ai =
      if ai.target_entity = RR_NULL_ENTITY ∨ sim.entity_alive ai.target_entity = false then
        { ai with target_entity :=
            sim.get_entity_hash (reacquire_search sim ai.parent_id ai.aggro_range) }
      else ai := rfl

/-- Under the provisos on the searches, the handle of what the search of the
re-acquisition step answers is null or alive. -/
theorem reacquire_search_valid (sim : rr_simulation F) (parent_id : EntityIdx)
    (aggro_range : F)
    (hnull : sim.get_entity_hash RR_NULL_ENTITY = RR_NULL_ENTITY)
    (hchoose : ∀ seeker range filter,
      sim.choose_nearby_enemy seeker range filter = RR_NULL_ENTITY ∨
      sim.entity_alive (sim.get_entity_hash (sim.choose_nearby_enemy seeker range filter)) = true)
    (hfind : ∀ seeker range filter,
      sim.find_nearest_enemy seeker range filter = RR_NULL_ENTITY ∨
      sim.entity_alive (sim.get_entity_hash (sim.find_nearest_enemy seeker range filter)) = true) :
    sim.get_entity_hash (reacquire_search sim parent_id aggro_range) = RR_NULL_ENTITY ∨
    sim.entity_alive (sim.get_entity_hash (reacquire_search sim parent_id aggro_range)) = true := by
  unfold reacquire_search
  split
  · rcases hchoose parent_id aggro_range sim.high_zone_filter with h | h
    · left; rw [h, hnull]
    · right; exact h
  · rcases hfind parent_id aggro_range
      (is_close_enough_to_parent sim (summon_anchor sim parent_id)) with h | h
    · left; rw [h, hnull]
    · right; exact h

/-- C20: on a fixed world whose searches answer no entity or an alive one and
in which the handle of no entity is the null sentinel, a second call of
`has_new_target` right after a first returns the same value, leaves the AI
component as the first call left it (the whole state, in fact), and takes no
draw from either random source. -/
theorem has_new_target_idempotent (sim : rr_simulation F) (st : rr_state F)
    (hnull : sim.get_entity_hash RR_NULL_ENTITY = RR_NULL_ENTITY)
    (hchoose : ∀ seeker range filter,
      sim.choose_nearby_enemy seeker range filter = RR_NULL_ENTITY ∨
      sim.entity_alive (sim.get_entity_hash (sim.choose_nearby_enemy seeker range filter)) = true)
    (hfind : ∀ seeker range filter,
      sim.find_nearest_enemy seeker range filter = RR_NULL_ENTITY ∨
      sim.entity_alive (sim.get_entity_hash (sim.find_nearest_enemy seeker range filter)) = true) :
    (has_new_target sim (has_new_target sim st).2).1 = (has_new_target sim st).1 ∧
    (has_new_target sim (has_new_target sim st).2).2.ai = (has_new_target sim st).2.ai ∧
    (has_new_target sim (has_new_target sim st).2).2.rand_calls =
      (has_new_target sim st).2.rand_calls ∧
    (has_new_target sim (has_new_target sim st).2).2.frand_calls =
      (has_new_target sim st).2.frand_calls ∧
    (has_new_target sim (has_new_target sim st).2).2 = (has_new_target sim st).2 := by
  have hvalid := reacquire_search_valid sim st.ai.parent_id st.ai.aggro_range hnull hchoose hfind
  have key : has_new_target sim (has_new_target sim st).2 = has_new_target sim st := by
    by_cases hcur : st.ai.target_entity = RR_NULL_ENTITY ∨
        sim.entity_alive st.ai.target_entity = false
    · by_cases hnew : sim.get_entity_hash (reacquire_search sim st.ai.parent_id st.ai.aggro_range)
          ≠ RR_NULL_ENTITY ∧
          sim.entity_alive
            (sim.get_entity_hash (reacquire_search sim st.ai.parent_id st.ai.aggro_range)) = true
      · by_cases hidle : st.ai.ai_state = rr_ai_state_idle ∨
            st.ai.ai_state = rr_ai_state_idle_moving
        · simp [has_new_target, has_new_target_reacquire_eq, hcur, hnew, hidle]
        · simp [has_new_target, has_new_target_reacquire_eq, hcur, hnew, hidle]
      · have hzero : sim.get_entity_hash
            (reacquire_search sim st.ai.parent_id st.ai.aggro_range) = RR_NULL_ENTITY := by
          rcases hvalid with h | h
          · exact h
          · by_contra hne
            exact hnew ⟨hne, h⟩
        by_cases hidle : st.ai.ai_state = rr_ai_state_idle ∨
            st.ai.ai_state = rr_ai_state_idle_moving
        · simp [has_new_target, has_new_target_reacquire_eq, hcur, hzero, hidle]
        · simp [has_new_target, has_new_target_reacquire_eq, hcur, hzero, hidle, rand]
    · have hcur2 : st.ai.target_entity ≠ RR_NULL_ENTITY ∧
          sim.entity_alive st.ai.target_entity = true := by
        simp only [not_or, Bool.not_eq_false] at hcur
        exact hcur
      by_cases hidle : st.ai.ai_state = rr_ai_state_idle ∨
          st.ai.ai_state = rr_ai_state_idle_moving
      · simp [has_new_target, has_new_target_reacquire_eq, hcur, hcur2, hidle]
      · simp [has_new_target, has_new_target_reacquire_eq, hcur, hcur2, hidle]
  rw [key]
  exact ⟨rfl, rfl, rfl, rfl, rfl⟩

/-- C20 at a concrete input: a returning mob with the dead target `3` for
which the search finds nothing; both calls answer false and the second leaves
the state of the first, one draw taken in all. -/
theorem has_new_target_idempotent_witness :
    (has_new_target (sample_sim ℚ 0 0)
      (has_new_target (sample_sim ℚ 0 0)
        (sample_state ℚ (sample_ai ℚ 3 rr_ai_state_returning_to_owner rr_ai_type_aggro 0)
          0 0)).2).1 =
      (has_new_target (sample_sim ℚ 0 0)
        (sample_state ℚ (sample_ai ℚ 3 rr_ai_state_returning_to_owner rr_ai_type_aggro 0)
          0 0)).1 ∧
    (has_new_target (sample_sim ℚ 0 0)
      (has_new_target (sample_sim ℚ 0 0)
        (sample_state ℚ (sample_ai ℚ 3 rr_ai_state_returning_to_owner rr_ai_type_aggro 0)
          0 0)).2).2.ai =
      (has_new_target (sample_sim ℚ 0 0)
        (sample_state ℚ (sample_ai ℚ 3 rr_ai_state_returning_to_owner rr_ai_type_aggro 0)
          0 0)).2.ai ∧
    (has_new_target (sample_sim ℚ 0 0)
      (has_new_target (sample_sim ℚ 0 0)
        (sample_state ℚ (sample_ai ℚ 3 rr_ai_state_returning_to_owner rr_ai_type_aggro 0)
          0 0)).2).2.rand_calls = 1 :=
  have h := has_new_target_idempotent (sample_sim ℚ 0 0)
    (sample_state ℚ (sample_ai ℚ 3 rr_ai_state_returning_to_owner rr_ai_type_aggro 0) 0 0)
    rfl (fun _ _ _ => Or.inl rfl) (fun _ _ _ => Or.inl rfl)
  ⟨h.1, h.2.1, h.2.2.1.trans rfl⟩

end Properties

end MobAi
